import Mathlib

/-!
Verification of the OpenGem request-fulfillment engine against its
specification.

The development shallowly embeds the engine's TypeScript sources:

* `services/error-classifier.ts` — `classifyError` and its pattern banks
  (regular expressions are hand-compiled into executable character-list
  matchers with the same matching semantics on the lowercased input);
* `services/account-cooldown.ts` — the per-account cooldown registry;
* `services/rate-limiter.ts` — the fixed-window client-side rate limiter;
* `controllers/chat.ts` — backoff helpers, the unary rotation loop
  (`tryGenerateContentWithAccounts`), the SSE pipe (`pipeStream`) and the
  streaming rotation loop (`streamWithAccounts`).

Machine integers are modelled as `Int`/`Nat` (all quantities stay far below
2^53, the limit of exact JS number arithmetic), clock reads as an explicit
`now : Int` parameter, `Math.random()` as an explicit rational sample, and
the upstream network as an oracle function from the call counter to the
call's outcome.  JSON values are modelled by the inductive type `J`;
`JSON.parse` is abstracted by supplying each SSE frame together with the
optional parse result of its payload.
-/

namespace OpenGem

/-! ## Character/string utilities (JS semantics)

Substring search (`String.prototype.includes`) and the character classes
used by the classifier's regular expressions: JS `\s` (ASCII part), `\w`,
and lowercasing (`String.prototype.toLowerCase`; only ASCII letters occur
in the inputs of interest).
-/

/-- JS `\s` restricted to the ASCII whitespace characters. -/
def isWsChar (c : Char) : Bool :=
  c = ' ' || c = '\t' || c = '\n' || c = '\r' || c = '\x0b' || c = '\x0c'

/-- JS `\w`, i.e. `[A-Za-z0-9_]`. -/
def isWordChar (c : Char) : Bool :=
  c.isAlpha || c.isDigit || c = '_'

/-- Lowercase a string (`String.prototype.toLowerCase`, ASCII fragment). -/
def jsToLower (s : String) : String := String.mk (s.data.map Char.toLower)

/-- Is `p` a prefix of `s`? -/
def listPrefixOf (p s : List Char) : Bool :=
  match p, s with
  | [], _ => true
  | _ :: _, [] => false
  | a :: ps, b :: ss => a = b && listPrefixOf ps ss

/-- Does `p` hold at some position (suffix) of the list? -/
def anyPos (p : List Char → Bool) : List Char → Bool
  | [] => p []
  | c :: cs => p (c :: cs) || anyPos p cs

/-- Substring containment on character lists (`includes`). -/
def listContains (s : List Char) (pat : String) : Bool :=
  anyPos (listPrefixOf pat.data) s

/-- Scan every position, passing the previous character (for `\b`). -/
def scanWithPrev (p : Option Char → List Char → Bool) : Option Char → List Char → Bool
  | prev, [] => p prev []
  | prev, c :: cs => p prev (c :: cs) || scanWithPrev p (some c) cs

/-- A word boundary holds before the position when the previous character
    is absent or not a word character. -/
def boundaryBefore : Option Char → Bool
  | none => true
  | some c => !(isWordChar c)

/-- A word boundary holds after the matched text when the next character is
    absent or not a word character. -/
def boundaryAfterList : List Char → Bool
  | [] => true
  | c :: _ => !(isWordChar c)

/-- Consume a literal, returning the remainder on success. -/
def eatLit (w : String) (s : List Char) : Option (List Char) :=
  if listPrefixOf w.data s then some (s.drop w.data.length) else none

/-- Consume `\s*`. -/
def eatWsStar (s : List Char) : List Char := s.dropWhile isWsChar

/-- Consume an optional single character from a class (`[..]?`).  Greedy
    consumption is faithful here because at every use site the class is
    disjoint from the first character of the literal that follows. -/
def eatOptChar (p : Char → Bool) (s : List Char) : List Char :=
  match s with
  | c :: cs => if p c then cs else c :: cs
  | [] => []

/-- JS `String.prototype.trim` (ASCII whitespace fragment). -/
def jsTrim (s : String) : String :=
  String.mk (((s.data.dropWhile isWsChar).reverse.dropWhile isWsChar).reverse)

/-- `String.prototype.startsWith` (list-based, kernel-reducible). -/
def strStartsWith (s pre : String) : Bool := listPrefixOf pre.data s.data

/-- `String.prototype.substring(n)`. -/
def strDrop (s : String) (n : Nat) : String := String.mk (s.data.drop n)

/-- `String.prototype.substring(0, n)`. -/
def strTake (s : String) (n : Nat) : String := String.mk (s.data.take n)

/-! ## Error classifier (`services/error-classifier.ts`) -/

/-- The nine error categories of `ErrorCategory`. -/
inductive ErrorCategory where
  | rate_limit
  | quota
  | auth
  | timeout
  | overloaded
  | billing
  | model_not_found
  | format
  | unknown
deriving DecidableEq, Repr

/-- Hand-compiled `/"type"\s*:\s*"overloaded_error"/` (second alternative of
    the overloaded regex; the first alternative is the bare literal). -/
def reTypeOverloaded (s : List Char) : Bool :=
  anyPos (fun t =>
    match eatLit "\"type\"" t with
    | none => false
    | some r1 =>
      match eatLit ":" (eatWsStar r1) with
      | none => false
      | some r2 => (eatLit "\"overloaded_error\"" (eatWsStar r2)).isSome) s

/-- Hand-compiled `/\bstop reason:\s*abort\b/`. -/
def reStopReasonAbort (s : List Char) : Bool :=
  scanWithPrev (fun prev t =>
    boundaryBefore prev &&
      (match eatLit "stop reason:" t with
       | none => false
       | some r1 =>
         match eatLit "abort" (eatWsStar r1) with
         | none => false
         | some r2 => boundaryAfterList r2)) none s

/-- Hand-compiled first alternative of the billing regex:
    `["']?(?:status|code)["']?\s*[:=]\s*402\b`. -/
def reStatusCode402 (s : List Char) : Bool :=
  anyPos (fun t =>
    let t1 := eatOptChar (fun c => c = '"' || c = '\x27') t
    let afterKey :=
      match eatLit "status" t1 with
      | some r => some r
      | none => eatLit "code" t1
    match afterKey with
    | none => false
    | some r1 =>
      let r2 := eatWsStar (eatOptChar (fun c => c = '"' || c = '\x27') r1)
      let afterSep :=
        match eatLit ":" r2 with
        | some r => some r
        | none => eatLit "=" r2
      match afterSep with
      | none => false
      | some r3 =>
        match eatLit "402" (eatWsStar r3) with
        | none => false
        | some r4 => boundaryAfterList r4) s

/-- Hand-compiled second alternative of the billing regex: `\bhttp\s*402\b`. -/
def reHttp402 (s : List Char) : Bool :=
  scanWithPrev (fun prev t =>
    boundaryBefore prev &&
      (match eatLit "http" t with
       | none => false
       | some r1 =>
         match eatLit "402" (eatWsStar r1) with
         | none => false
         | some r2 => boundaryAfterList r2)) none s

/-- Hand-compiled `/invalid[_ ]?api[_ ]?key/`. -/
def reInvalidApiKey (s : List Char) : Bool :=
  anyPos (fun t =>
    match eatLit "invalid" t with
    | none => false
    | some r1 =>
      match eatLit "api" (eatOptChar (fun c => c = '_' || c = ' ') r1) with
      | none => false
      | some r2 =>
        (eatLit "key" (eatOptChar (fun c => c = '_' || c = ' ') r2)).isSome) s

/-- Word-bounded literal containment, e.g. `/\b401\b/`. -/
def containsWordBounded (w : String) (s : List Char) : Bool :=
  scanWithPrev (fun prev t =>
    boundaryBefore prev &&
      (match eatLit w t with
       | none => false
       | some r => boundaryAfterList r)) none s

/-- Hand-compiled `/models\/[^\s]+ is not found/`.  Because the literal that
    follows `[^\s]+` begins with a space, only the maximal non-whitespace run
    can be consumed by the plus. -/
def reModelsIsNotFound (s : List Char) : Bool :=
  anyPos (fun t =>
    match eatLit "models/" t with
    | none => false
    | some r =>
      let run := r.takeWhile (fun c => !isWsChar c)
      !run.isEmpty && listPrefixOf (" is not found").data (r.drop run.length)) s

/-- Search for `p` at positions reachable without crossing a line
    terminator (JS `.` does not match `\n` or `\r`). -/
def searchNoNL (p : List Char → Bool) : List Char → Bool
  | [] => p []
  | c :: cs => p (c :: cs) || (!(c = '\n' || c = '\r') && searchNoNL p cs)

/-- Hand-compiled `/\b404\b.*not[-_ ]?found/`. -/
def re404NotFound (s : List Char) : Bool :=
  scanWithPrev (fun prev t =>
    boundaryBefore prev &&
      (match eatLit "404" t with
       | none => false
       | some r =>
         boundaryAfterList r &&
           searchNoNL (fun u =>
             match eatLit "not" u with
             | none => false
             | some r1 =>
               (eatLit "found" (eatOptChar (fun c => c = '-' || c = '_' || c = ' ') r1)).isSome) r)) none s

/-- Hand-compiled `/tool call id was.*must be/`. -/
def reToolCallIdWas (s : List Char) : Bool :=
  anyPos (fun t =>
    match eatLit "tool call id was" t with
    | none => false
    | some r => searchNoNL (fun u => (eatLit "must be" u).isSome) r) s

/-- `matchesPatterns(text, ERROR_PATTERNS.quota)`. -/
def matchesQuota (text : String) : Bool :=
  if text = "" then false else
  let lower := (jsToLower text).data
  listContains lower "resource has been exhausted" ||
  listContains lower "resource_exhausted" ||
  listContains lower "quota exceeded" ||
  listContains lower "quota_exceeded" ||
  listContains lower "insufficient_quota"

/-- `matchesPatterns(text, ERROR_PATTERNS.rateLimit)`.  The regex
    `/rate[_ ]limit|too many requests|429/` is an alternation of literals
    (with a two-character class), compiled to four containment checks. -/
def matchesRateLimit (text : String) : Bool :=
  if text = "" then false else
  let lower := (jsToLower text).data
  (listContains lower "rate_limit" || listContains lower "rate limit" ||
   listContains lower "too many requests" || listContains lower "429") ||
  listContains lower "exceeded your current quota" ||
  listContains lower "usage limit"

/-- `matchesPatterns(text, ERROR_PATTERNS.overloaded)`. -/
def matchesOverloaded (text : String) : Bool :=
  if text = "" then false else
  let lower := (jsToLower text).data
  (listContains lower "overloaded_error" || reTypeOverloaded lower) ||
  listContains lower "overloaded" ||
  listContains lower "service unavailable" ||
  listContains lower "high demand"

/-- `matchesPatterns(text, ERROR_PATTERNS.timeout)`.  The regex
    `/without sending (?:any )?chunks?/` matches exactly when one of the two
    substrings below occurs (the optional trailing `s` extends a match). -/
def matchesTimeout (text : String) : Bool :=
  if text = "" then false else
  let lower := (jsToLower text).data
  listContains lower "timeout" ||
  listContains lower "timed out" ||
  listContains lower "deadline exceeded" ||
  listContains lower "context deadline exceeded" ||
  (listContains lower "without sending chunk" || listContains lower "without sending any chunk") ||
  reStopReasonAbort lower

/-- `matchesPatterns(text, ERROR_PATTERNS.billing)`. -/
def matchesBilling (text : String) : Bool :=
  if text = "" then false else
  let lower := (jsToLower text).data
  (reStatusCode402 lower || reHttp402 lower) ||
  listContains lower "payment required" ||
  listContains lower "insufficient credits" ||
  listContains lower "credit balance" ||
  listContains lower "insufficient balance"

/-- `matchesPatterns(text, ERROR_PATTERNS.auth)`. -/
def matchesAuth (text : String) : Bool :=
  if text = "" then false else
  let lower := (jsToLower text).data
  reInvalidApiKey lower ||
  listContains lower "incorrect api key" ||
  listContains lower "invalid token" ||
  listContains lower "invalid_grant" ||
  listContains lower "token refresh failed" ||
  listContains lower "unauthorized" ||
  listContains lower "forbidden" ||
  listContains lower "access denied" ||
  listContains lower "token has expired" ||
  containsWordBounded "401" lower ||
  containsWordBounded "403" lower ||
  listContains lower "no credentials found" ||
  listContains lower "no api key found" ||
  listContains lower "oauth token refresh failed" ||
  listContains lower "re-authenticate"

/-- `matchesPatterns(text, ERROR_PATTERNS.modelNotFound)`. -/
def matchesModelNotFound (text : String) : Bool :=
  if text = "" then false else
  let lower := (jsToLower text).data
  listContains lower "unknown model" ||
  listContains lower "model not found" ||
  listContains lower "model_not_found" ||
  listContains lower "not_found_error" ||
  reModelsIsNotFound lower ||
  re404NotFound lower

/-- `matchesPatterns(text, ERROR_PATTERNS.format)`. -/
def matchesFormat (text : String) : Bool :=
  if text = "" then false else
  let lower := (jsToLower text).data
  listContains lower "invalid request format" ||
  listContains lower "string should match pattern" ||
  reToolCallIdWas lower

/-- `extractHttpStatus`: `text.match(/^(\d{3})\s+/)`, i.e. three leading
    digits followed by a whitespace character. -/
def extractHttpStatus (text : String) : Option Nat :=
  match text.data with
  | a :: b :: c :: d :: _ =>
    if a.isDigit && b.isDigit && c.isDigit && isWsChar d then
      some ((a.toNat - 48) * 100 + (b.toNat - 48) * 10 + (c.toNat - 48))
    else none
  | _ => none

/-- `TRANSIENT_HTTP_ERROR_CODES`. -/
def TRANSIENT_HTTP_ERROR_CODES : List Nat := [500, 502, 503, 504, 521, 522, 523, 524, 529]

/-- The status-shortcut chain at the top of `classifyError`.  In JS the guard
    is `if (httpStatus)`, so a parsed status of `0` (e.g. input `"000 x"`) is
    falsy and skips the shortcuts. -/
def statusShortcut (text : String) : Option ErrorCategory :=
  match extractHttpStatus text with
  | none => none
  | some httpStatus =>
    if httpStatus = 0 then none
    else if httpStatus = 429 then
      some (if matchesQuota text then .quota else .rate_limit)
    else if httpStatus = 401 || httpStatus = 403 then some .auth
    else if httpStatus = 402 then some .billing
    else if httpStatus = 404 then some .model_not_found
    else if httpStatus = 408 then some .timeout
    else if httpStatus ∈ TRANSIENT_HTTP_ERROR_CODES then some .timeout
    else none

/-- `classifyError`. -/
def classifyError (text : String) : ErrorCategory :=
  if text = "" then .unknown
  else
    match statusShortcut text with
    | some c => c
    | none =>
      if matchesModelNotFound text then .model_not_found
      else if matchesQuota text then .quota
      else if matchesRateLimit text then .rate_limit
      else if matchesOverloaded text then .overloaded
      else if matchesAuth text then .auth
      else if matchesFormat text then .format
      else if matchesBilling text then .billing
      else if matchesTimeout text then .timeout
      else .unknown

/-- `classify429` (`controllers/chat.ts`): collapse a classification to the
    two 429 cooldown categories. -/
def classify429 (text : String) : ErrorCategory :=
  let cat := classifyError text
  if cat = .quota || cat = .auth || cat = .billing then .quota else .rate_limit

/-! ## Association maps

`Map` objects keyed by account email are modelled as association lists;
`set` replaces in place for an existing key and appends otherwise, which
preserves the iteration order of a JS `Map`. -/

/-- Lookup in an association list. -/
def mapGet {α : Type} (m : List (String × α)) (k : String) : Option α :=
  match m with
  | [] => none
  | (k', v) :: rest => if k' = k then some v else mapGet rest k

/-- `Map.prototype.set`. -/
def mapSet {α : Type} (m : List (String × α)) (k : String) (v : α) : List (String × α) :=
  match m with
  | [] => [(k, v)]
  | (k', v') :: rest => if k' = k then (k, v) :: rest else (k', v') :: mapSet rest k v

/-- `Map.prototype.delete`.  A JS `Map` holds at most one entry per key;
    removing every association of the key is the same operation and keeps the
    model's lemmas independent of a no-duplicates invariant. -/
def mapDel {α : Type} (m : List (String × α)) (k : String) : List (String × α) :=
  m.filter (fun e => e.1 != k)

/-! ## Cooldown registry (`services/account-cooldown.ts`) -/

/-- `AccountCooldownState`.  Instants are epoch milliseconds. -/
structure AccountCooldownState where
  cooldownUntil : Int
  reason : ErrorCategory
  failureCount : Nat
  lastProbeAt : Option Int
deriving DecidableEq, Repr

/-- The in-memory cooldown map, keyed by account email. -/
abbrev CooldownMap := List (String × AccountCooldownState)

def MIN_PROBE_INTERVAL_MS : Int := 30000
def RATE_LIMIT_COOLDOWN_MS : Int := 15000
def QUOTA_COOLDOWN_MS : Int := 60 * 60 * 1000
def PROBE_MARGIN_MS : Int := 2 * 60 * 1000

/-- `Number.MAX_SAFE_INTEGER`. -/
def MAX_SAFE_INTEGER : Int := 9007199254740991

/-- `calculateCooldownMs`.  The JS exponent is `2 ** Math.max(0, failureCount - 1)`;
    `Nat` subtraction already truncates at zero. -/
def calculateCooldownMs (category : ErrorCategory) (failureCount : Nat) : Int :=
  match category with
  | .rate_limit | .overloaded =>
    min (RATE_LIMIT_COOLDOWN_MS * 2 ^ (failureCount - 1)) (2 * 60 * 1000)
  | .quota => QUOTA_COOLDOWN_MS
  | .auth | .billing => MAX_SAFE_INTEGER
  | .timeout => 5000
  | _ => RATE_LIMIT_COOLDOWN_MS

/-- `markAccountCooldown`. -/
def markAccountCooldown (now : Int) (m : CooldownMap) (email : String)
    (category : ErrorCategory) : CooldownMap :=
  let existing := mapGet m email
  let failureCount := (match existing with | some st => st.failureCount | none => 0) + 1
  let cooldownMs := calculateCooldownMs category failureCount
  mapSet m email
    { cooldownUntil := now + cooldownMs
      reason := category
      failureCount := failureCount
      lastProbeAt := match existing with | some st => st.lastProbeAt | none => none }

/-- `clearAccountCooldown`. -/
def clearAccountCooldown (m : CooldownMap) (email : String) : CooldownMap :=
  mapDel m email

/-- `isAccountInCooldown`; an expired entry is deleted on read. -/
def isAccountInCooldown (now : Int) (m : CooldownMap) (email : String) :
    Bool × CooldownMap :=
  match mapGet m email with
  | none => (false, m)
  | some st =>
    if now ≥ st.cooldownUntil then (false, clearAccountCooldown m email)
    else (true, m)

/-- `shouldProbeAccount`. -/
def shouldProbeAccount (now : Int) (m : CooldownMap) (email : String) : Bool :=
  match mapGet m email with
  | none => false
  | some st =>
    if st.reason = .auth || st.reason = .billing then false
    else
      let lastProbe := match st.lastProbeAt with | some t => t | none => 0
      if now - lastProbe < MIN_PROBE_INTERVAL_MS then false
      else if now ≥ st.cooldownUntil - PROBE_MARGIN_MS then true
      else if st.reason = .rate_limit || st.reason = .overloaded then true
      else false

/-- `recordProbe`. -/
def recordProbe (now : Int) (m : CooldownMap) (email : String) : CooldownMap :=
  match mapGet m email with
  | none => m
  | some st => mapSet m email { st with lastProbeAt := some now }

/-- `markAccountSuccess`. -/
def markAccountSuccess (m : CooldownMap) (email : String) : CooldownMap :=
  if (mapGet m email).isSome then clearAccountCooldown m email else m

/-- `clearExpiredCooldowns`; returns the number of entries removed. -/
def clearExpiredCooldowns (now : Int) (m : CooldownMap) : Nat × CooldownMap :=
  let kept := m.filter (fun e => !(now ≥ e.2.cooldownUntil))
  (m.length - kept.length, kept)

/-! ## Rate limiter (`services/rate-limiter.ts`) -/

/-- `RateLimitResult`. -/
structure RateLimitResult where
  allowed : Bool
  retryAfterMs : Int
  remaining : Int
deriving DecidableEq, Repr

/-- A fixed-window bucket. -/
structure Bucket where
  count : Int
  windowStartMs : Int
deriving DecidableEq, Repr

abbrev BucketMap := List (String × Bucket)

/-- Parameter normalization in `createRateLimiter`
    (`Math.max(1, Math.floor(...))`; parameters are integral here). -/
def rlNormalize (v : Int) : Int := max 1 v

/-- `consume` of the limiter created by `createRateLimiter`. -/
def consume (maxRequests windowMs : Int) (buckets : BucketMap) (key : String)
    (now : Int) : RateLimitResult × BucketMap :=
  let fresh : Bucket := { count := 0, windowStartMs := now }
  let (bucket, buckets1) :=
    match mapGet buckets key with
    | none => (fresh, mapSet buckets key fresh)
    | some b =>
      if now - b.windowStartMs ≥ windowMs then (fresh, mapSet buckets key fresh)
      else (b, buckets)
  if bucket.count ≥ maxRequests then
    ({ allowed := false
       retryAfterMs := max 0 (bucket.windowStartMs + windowMs - now)
       remaining := 0 }, buckets1)
  else
    let b' : Bucket := { bucket with count := bucket.count + 1 }
    ({ allowed := true
       retryAfterMs := 0
       remaining := max 0 (maxRequests - b'.count) }, mapSet buckets1 key b')

/-- The `accountRateLimiter` parameters: 60 requests per 60 000 ms. -/
def RATE_LIMIT_MAX : Int := 60

def RATE_LIMIT_WINDOW_MS : Int := 60000

/-- `accountRateLimiter.consume`. -/
def accountConsume (buckets : BucketMap) (key : String) (now : Int) :
    RateLimitResult × BucketMap :=
  consume (rlNormalize RATE_LIMIT_MAX) (rlNormalize RATE_LIMIT_WINDOW_MS) buckets key now

/-! ## Backoff policy (`controllers/chat.ts` lines 20–37)

`Math.random()` is modelled as an explicit rational sample `rand ∈ [0, 1)`;
`Math.round` rounds half away from zero toward positive infinity. -/

def BASE_RETRY_DELAY_MS : ℚ := 2000
def MAX_RETRY_DELAY_MS : ℚ := 60000
def JITTER_FACTOR : ℚ := 1 / 5
def MAX_ATTEMPTS : Nat := 5
def INTER_ACCOUNT_STAGGER_MS : Int := 150

/-- JS `Math.round`: half up. -/
def jsRound (q : ℚ) : Int := ⌊q + 1 / 2⌋

/-- `applyJitter`. -/
def applyJitter (delayMs : ℚ) (rand : ℚ) : Int :=
  let offset := (rand * 2 - 1) * JITTER_FACTOR
  max 0 (jsRound (delayMs * (1 + offset)))

/-- `computeBackoffDelay`.  Note that the function takes no information from
    the upstream response; in particular no `Retry-After` header value. -/
def computeBackoffDelay (attempt : Nat) (rand : ℚ) : Int :=
  applyJitter (min (BASE_RETRY_DELAY_MS * 2 ^ attempt) MAX_RETRY_DELAY_MS) rand

/-- Modelled from the spec: section 4.6 prescribes that when an upstream
    `Retry-After` header is present its value replaces the exponential term
    as the base, still jittered, still capped at 60 s, with a floor of 2 s.
    No such computation exists in the code under `src/` (the deployed
    `computeBackoffDelay` consumes only `attempt`); this definition renders
    the spec's words for comparison. -/
def specBackoffWithRetryAfter (attempt : Nat) (retryAfterMs : Option ℚ) (rand : ℚ) : Int :=
  let base : ℚ :=
    match retryAfterMs with
    | some v => max BASE_RETRY_DELAY_MS (min v MAX_RETRY_DELAY_MS)
    | none => min (BASE_RETRY_DELAY_MS * 2 ^ attempt) MAX_RETRY_DELAY_MS
  applyJitter base rand

/-! ## JSON values

Upstream bodies and SSE frame payloads are JSON; numbers are modelled as
integers (the only numeric field the engine reads is a token count). -/

inductive J where
  | null
  | bool (b : Bool)
  | num (n : Int)
  | str (s : String)
  | arr (elems : List J)
  | obj (fields : List (String × J))
deriving Repr

/-- Field lookup in an object's field list. -/
def jLookup : List (String × J) → String → Option J
  | [], _ => none
  | (k, v) :: rest, key => if k = key then some v else jLookup rest key

/-- Property access `j.k` (undefined on non-objects). -/
def J.get? : J → String → Option J
  | .obj fs, key => jLookup fs key
  | _, _ => none

/-- Index access `j[i]` (undefined on non-arrays). -/
def J.idx? : J → Nat → Option J
  | .arr xs, i => xs.get? i
  | _, _ => none

/-- JS truthiness of a JSON value. -/
def J.truthy : J → Bool
  | .null => false
  | .bool b => b
  | .num n => n != 0
  | .str s => s != ""
  | .arr _ => true
  | .obj _ => true

/-- Optional chaining `o?.k`. -/
def optField (o : Option J) (k : String) : Option J := o.bind (fun j => j.get? k)

/-- Optional chaining `o?.[i]`. -/
def optIdx (o : Option J) (i : Nat) : Option J := o.bind (fun j => j.idx? i)

/-- JS `a || b` on possibly-undefined JSON values: `b` when `a` is absent or
    falsy. -/
def jsOrOpt (a b : Option J) : Option J :=
  match a with
  | some v => if v.truthy then some v else b
  | none => b

/-- Numeric reading of a JSON value (the engine only reads token counts). -/
def J.asNum : J → Int
  | .num n => n
  | _ => 0

/-- Property assignment `obj.k = v`: replaces in place, appends when new. -/
def jSetField : List (String × J) → String → J → List (String × J)
  | [], k, v => [(k, v)]
  | (k', v') :: rest, k, v =>
    if k' = k then (k, v) :: rest else (k', v') :: jSetField rest k v

def J.setField : J → String → J → J
  | .obj fs, k, v => .obj (jSetField fs k v)
  | j, _, _ => j

/-- String escaping of `JSON.stringify` (common escapes; the engine's
    payloads contain no other control characters). -/
def escapeChar (c : Char) : String :=
  if c = '"' then "\\\""
  else if c = '\\' then "\\\\"
  else if c = '\n' then "\\n"
  else if c = '\r' then "\\r"
  else if c = '\t' then "\\t"
  else String.singleton c

def escapeString (s : String) : String :=
  s.data.foldl (fun a c => a ++ escapeChar c) ""

mutual

/-- Compact `JSON.stringify`. -/
def stringify : J → String
  | .null => "null"
  | .bool true => "true"
  | .bool false => "false"
  | .num n => toString n
  | .str s => "\"" ++ escapeString s ++ "\""
  | .arr xs => "[" ++ stringifyItems xs ++ "]"
  | .obj fs => "\x7b" ++ stringifyFields fs ++ "\x7d"

def stringifyItems : List J → String
  | [] => ""
  | [x] => stringify x
  | x :: y :: rest => stringify x ++ "," ++ stringifyItems (y :: rest)

def stringifyFields : List (String × J) → String
  | [] => ""
  | [(k, v)] => "\"" ++ escapeString k ++ "\":" ++ stringify v
  | (k, v) :: e :: rest =>
    "\"" ++ escapeString k ++ "\":" ++ stringify v ++ "," ++ stringifyFields (e :: rest)

end

def spaces (n : Nat) : String := String.mk (List.replicate n ' ')

mutual

/-- `JSON.stringify(v, null, 2)`. -/
def prettyStringify (ind : Nat) : J → String
  | .arr [] => "[]"
  | .obj [] => "\x7b\x7d"
  | .arr (x :: xs) =>
    "[\n" ++ prettyItems (ind + 2) (x :: xs) ++ "\n" ++ spaces ind ++ "]"
  | .obj (f :: fs) =>
    "\x7b\n" ++ prettyFields (ind + 2) (f :: fs) ++ "\n" ++ spaces ind ++ "\x7d"
  | j => stringify j

def prettyItems (ind : Nat) : List J → String
  | [] => ""
  | [x] => spaces ind ++ prettyStringify ind x
  | x :: y :: rest =>
    spaces ind ++ prettyStringify ind x ++ ",\n" ++ prettyItems ind (y :: rest)

def prettyFields (ind : Nat) : List (String × J) → String
  | [] => ""
  | [(k, v)] => spaces ind ++ "\"" ++ escapeString k ++ "\": " ++ prettyStringify ind v
  | (k, v) :: e :: rest =>
    spaces ind ++ "\"" ++ escapeString k ++ "\": " ++ prettyStringify ind v ++ ",\n" ++
      prettyFields ind (e :: rest)

end

/-- String reading of a JSON value for concatenation contexts (JS coerces). -/
def J.asStr : J → String
  | .str s => s
  | j => stringify j

/-- Rendering of `JSON.stringify(fc.args, null, 2)` inside a template string;
    an absent `args` renders as `undefined`. -/
def prettyArgs : Option J → String
  | none => "undefined"
  | some j => prettyStringify 0 j

/-- Rendering of `fc.name` inside a template string. -/
def fcName (fc : J) : String :=
  match fc.get? "name" with
  | some j => j.asStr
  | none => "undefined"

/-- One entry of `extractText`'s part mapper: `p.text` when truthy, else the
    `[Tool Call: …]` rendering when `p.functionCall` is present, else `""`. -/
def partFnCall (p : J) : String :=
  match p.get? "functionCall" with
  | some fc =>
    if fc.truthy then
      "[Tool Call: " ++ fcName fc ++ "]\n" ++ prettyArgs (fc.get? "args")
    else ""
  | none => ""

def partText (p : J) : String :=
  match p.get? "text" with
  | some t => if t.truthy then t.asStr else partFnCall p
  | none => partFnCall p

/-- `extractText(candidate)` (`controllers/chat.ts` lines 76–86).  A present
    non-array `parts` would throw in JS; well-formed bodies are assumed. -/
def extractText (candidate : Option J) : String :=
  let parts :=
    match optField (optField candidate "content") "parts" with
    | some (.arr l) => l
    | _ => []
  jsTrim (String.intercalate "\n\n" ((parts.map partText).filter (fun s => s != "")))

/-- `data.usageMetadata?.totalTokenCount || data.response?.usageMetadata?.totalTokenCount || 0`. -/
def totalTokens (data : J) : Int :=
  match jsOrOpt (optField (data.get? "usageMetadata") "totalTokenCount")
      (optField (optField (data.get? "response") "usageMetadata") "totalTokenCount") with
  | some v => if v.truthy then v.asNum else 0
  | none => 0

/-! ## Downstream response object -/

/-- The observable state of the Express `Response`. -/
structure ResState where
  headersSent : Bool
  writableEnded : Bool
  writes : List String
  statusCode : Option Nat
  jsonBody : Option J

/-- `res.write(chunk)`. -/
def resWrite (r : ResState) (chunk : String) : ResState :=
  { r with writes := r.writes ++ [chunk] }

/-- `res.end()`. -/
def resEnd (r : ResState) : ResState := { r with writableEnded := true }

/-- `res.writeHead(200, …SSE headers…)`. -/
def resWriteHead200SSE (r : ResState) : ResState :=
  { r with headersSent := true, statusCode := some 200 }

/-- `res.status(code).json(body)`. -/
def resStatusJson (r : ResState) (code : Nat) (body : J) : ResState :=
  { r with headersSent := true, statusCode := some code, jsonBody := some body }

/-- A fresh response object. -/
def freshRes : ResState :=
  { headersSent := false, writableEnded := false, writes := [], statusCode := none,
    jsonBody := none }

/-! ## SSE pipe (`pipeStream`, `controllers/chat.ts` lines 273–320)

An upstream stream is abstracted as the list of complete SSE lines it
delivers, each paired with the result of `JSON.parse` on its `data:`
payload (`none` models a parse failure), followed by either a clean end or
an error event. -/

structure Frame where
  line : String
  parsed : Option J

structure PipeAcc where
  fullAnswer : String
  tokenUsage : Int
  res : ResState

def DONE_FRAME : String := "data: [DONE]\n\n"

/-- The `fullAnswer` contribution of a functionCall part. -/
def streamPartFnCall (s : String) (p : J) : String :=
  match p.get? "functionCall" with
  | some fc =>
    if fc.truthy then
      s ++ "\n\n[Tool Call: " ++ fcName fc ++ "]\n" ++ prettyArgs (fc.get? "args") ++ "\n\n"
    else s
  | none => s

/-- The `fullAnswer` accumulation for one part. -/
def streamPartAppend (s : String) (p : J) : String :=
  match p.get? "text" with
  | some t =>
    if t.truthy then s ++ t.asStr else streamPartFnCall s p
  | none => streamPartFnCall s p

/-- Processing of one complete line inside the `data` handler. -/
def pipeLine (unwrapEnvelope : Bool) (acc : PipeAcc) (f : Frame) : PipeAcc :=
  if !(strStartsWith f.line "data: ") then acc
  else
    let jsonStr := jsTrim (strDrop f.line 6)
    if jsonStr = "" || jsonStr = "[DONE]" then acc
    else
      match f.parsed with
      | none => { acc with res := resWrite acc.res (f.line ++ "\n\n") }
      | some parsed =>
        let partsOpt :=
          jsOrOpt (optField (optField (optIdx (parsed.get? "candidates") 0) "content") "parts")
            (optField (optField (optIdx (optField (parsed.get? "response") "candidates") 0)
              "content") "parts")
        let fullAnswer1 :=
          match partsOpt with
          | some (.arr parts) => parts.foldl streamPartAppend acc.fullAnswer
          | _ => acc.fullAnswer
        let usage := jsOrOpt (parsed.get? "usageMetadata")
          (optField (parsed.get? "response") "usageMetadata")
        let tokenUsage1 :=
          match optField usage "totalTokenCount" with
          | some t => if t.truthy then t.asNum else acc.tokenUsage
          | none => acc.tokenUsage
        let forwarded :=
          match parsed.get? "response" with
          | some r =>
            if unwrapEnvelope && r.truthy then
              match parsed.get? "usageMetadata" with
              | some um => if um.truthy then r.setField "usageMetadata" um else r
              | none => r
            else parsed
          | none => parsed
        { fullAnswer := fullAnswer1
          tokenUsage := tokenUsage1
          res := resWrite acc.res ("data: " ++ stringify forwarded ++ "\n\n") }

/-- `pipeStream`: processes every delivered line, then either the `end`
    handler (one `[DONE]` frame, `res.end()`, resolve) or the `error`
    handler (`res.end()` unless already ended, reject). -/
def pipeStream (unwrapEnvelope : Bool) (frames : List Frame) (streamErr : Option String)
    (res : ResState) : ResState × Except String (String × Int) :=
  let acc := frames.foldl (pipeLine unwrapEnvelope)
    { fullAnswer := "", tokenUsage := 0, res := res }
  match streamErr with
  | none => (resEnd (resWrite acc.res DONE_FRAME), .ok (acc.fullAnswer, acc.tokenUsage))
  | some msg =>
    ((if acc.res.writableEnded then acc.res else resEnd acc.res), .error msg)

/-! ## Model constants and fallback chain (`services/gemini.ts`, `controllers/chat.ts`) -/

def DEFAULT_MODEL : String := "gemini-3-flash-preview"

def FALLBACK_MODEL : String := "gemini-3-pro-preview"

/-- Modelled from the spec: the constant `FALLBACK_MODEL_V2` is imported and
    used by the controller, but the file defining it is not among the sources
    under `src/`; the spec names the third element of the chain
    `flash → pro → pro-3.1`, matching the controller's comments. -/
def FALLBACK_MODEL_V2 : String := "gemini-3.1-pro-preview"

/-- `getFallbackModel`: the next model to try after a 429. -/
def getFallbackModel (current : String) : Option String :=
  if current = FALLBACK_MODEL_V2 then none
  else if current = FALLBACK_MODEL then some FALLBACK_MODEL_V2
  else some FALLBACK_MODEL

/-- `resolveModel`. -/
def resolveModel (model : String) : String :=
  if model = "gemini-3.1-pro-preview" then FALLBACK_MODEL
  else if model = "" then DEFAULT_MODEL
  else model

/-! ## Rotation engines (`controllers/chat.ts`)

Observable side effects other than the cooldown map, the rate-limit buckets
and the downstream response are collected as events: upstream calls issued,
`db.incrementAccountStats` updates, and `db.addRequestLog` entries (the
logged entry is reduced to its answer text and success flag; its other
fields do not bear on any claim).  Sleeps (stagger and backoff) have no
observable effect under a fixed clock and are elided. -/

structure Account where
  email : String
  projectId : String
deriving DecidableEq, Repr

inductive Ev where
  | fetch (model : String)
  | stats (email : String) (successful failed tokens : Int)
  | log (email : String) (answer : String) (success : Bool)
deriving DecidableEq, Repr

structure EngSt where
  cooldowns : CooldownMap
  buckets : BucketMap
  callIdx : Nat
  events : List Ev
  res : ResState

def addEv (st : EngSt) (e : Ev) : EngSt := { st with events := st.events ++ [e] }

def freshEngSt : EngSt :=
  { cooldowns := [], buckets := [], callIdx := 0, events := [], res := freshRes }

/-- The outcome of one unary upstream interaction: either the `try` block
    throws before a response is obtained (token refresh or network failure),
    or an HTTP response arrives with a JSON body (`.json()`) and a body text
    (`.text()`). -/
inductive UnaryOutcome where
  | throwErr (msg : String)
  | resp (status : Nat) (body : J) (text : String)

inductive StepRes where
  | success (data : J)
  | cont

/-- The `catch (e)` branch of the unary loop body. -/
def unaryCatch (now : Int) (st : EngSt) (account : Account) (msg : String) : StepRes × EngSt :=
  let cat := classifyError msg
  let st := { st with cooldowns := markAccountCooldown now st.cooldowns account.email cat }
  let st := addEv st (.stats account.email 0 1 0)
  let answer := "ERROR: " ++ (if msg = "" then "Network Error" else strTake msg 100)
  let st := addEv st (.log account.email answer false)
  (.cont, st)

/-- The classify-and-cooldown tail of the unary 429 branch.  The
    `response.text()` read is modelled as never throwing (its `catch` keeps
    the default `rate_limit`). -/
def unary429Cooldown (now : Int) (st : EngSt) (account : Account) (bodyText : String) :
    StepRes × EngSt :=
  let errCategory := classify429 bodyText
  let marked := markAccountCooldown now st.cooldowns account.email
    (if errCategory = .quota then .quota else .rate_limit)
  let st := { st with cooldowns := marked }
  let st := addEv st (.stats account.email 0 1 0)
  let answer :=
    "ERROR 429: " ++ (if errCategory = .quota then "quota" else "rate_limit") ++ " cooldown"
  let st := addEv st (.log account.email answer false)
  (.cont, st)

/-- The `try` block of one unary account iteration
    (`tryGenerateContentWithAccounts`, lines 185–259). -/
def unaryTryAccount (env : Nat → UnaryOutcome) (model : String) (now : Int)
    (st : EngSt) (account : Account) : StepRes × EngSt :=
  let usedModel := if model = "" then DEFAULT_MODEL else model
  match env st.callIdx with
  | .throwErr msg => unaryCatch now st account msg
  | .resp status body text =>
    let st := addEv { st with callIdx := st.callIdx + 1 } (.fetch usedModel)
    if status = 429 then
      match getFallbackModel usedModel with
      | some fallback =>
        (match env st.callIdx with
         | .throwErr msg => unaryCatch now st account msg
         | .resp fbStatus fbBody _fbText =>
           let st := addEv { st with callIdx := st.callIdx + 1 } (.fetch fallback)
           if 200 ≤ fbStatus ∧ fbStatus < 300 then
             let content := extractText (optIdx (optField (fbBody.get? "response") "candidates") 0)
             let tokens := totalTokens fbBody
             if content != "" then
               let st := { st with cooldowns := markAccountSuccess st.cooldowns account.email }
               let st := addEv st (.stats account.email 1 0 tokens)
               let st := addEv st (.log account.email content true)
               (.success (((fbBody.get? "response")).getD .null), st)
             else unary429Cooldown now st account text
           else unary429Cooldown now st account text)
      | none => unary429Cooldown now st account text
    else if !(200 ≤ status ∧ status < 300) then
      let st := addEv st (.stats account.email 0 1 0)
      let st := addEv st
        (.log account.email ("ERROR " ++ toString status ++ ": " ++ strTake text 100) false)
      (.cont, st)
    else
      let content := extractText (optIdx (optField (body.get? "response") "candidates") 0)
      let tokens := totalTokens body
      if content != "" then
        let st := { st with cooldowns := markAccountSuccess st.cooldowns account.email }
        let st := addEv st (.stats account.email 1 0 tokens)
        let st := addEv st (.log account.email content true)
        (.success (((body.get? "response")).getD .null), st)
      else
        (.cont, st)

/-- One round of the unary rotation: the per-account loop with its cooldown
    gate, probe window, and client-side rate-limit gate. -/
def unaryIterate (env : Nat → UnaryOutcome) (model : String) (now : Int) :
    List Account → EngSt → Option J × EngSt
  | [], st => (none, st)
  | account :: rest, st =>
    let gate := isAccountInCooldown now st.cooldowns account.email
    let st := { st with cooldowns := gate.2 }
    if gate.1 && !(shouldProbeAccount now st.cooldowns account.email) then
      unaryIterate env model now rest st
    else
      let st :=
        if gate.1 then { st with cooldowns := recordProbe now st.cooldowns account.email }
        else st
      let rl := accountConsume st.buckets account.email now
      let st := { st with buckets := rl.2 }
      if !rl.1.allowed then unaryIterate env model now rest st
      else
        match unaryTryAccount env model now st account with
        | (.success d, st1) => (some d, st1)
        | (.cont, st1) => unaryIterate env model now rest st1

/-- `tryGenerateContentWithAccounts`: up to `MAX_ATTEMPTS` rounds over the
    cached account list (constant within one request). -/
def tryGenerateContentWithAccounts (env : Nat → UnaryOutcome) (model : String) (now : Int)
    (accounts : List Account) : Nat → EngSt → Option J × EngSt
  | 0, st => (none, st)
  | Nat.succ fuel, st =>
    let st := { st with cooldowns := (clearExpiredCooldowns now st.cooldowns).2 }
    if accounts.isEmpty then (none, st)
    else
      match unaryIterate env model now accounts st with
      | (some d, st1) => (some d, st1)
      | (none, st1) => tryGenerateContentWithAccounts env model now accounts fuel st1

def runUnary (env : Nat → UnaryOutcome) (model : String) (now : Int)
    (accounts : List Account) (st : EngSt) : Option J × EngSt :=
  tryGenerateContentWithAccounts env model now accounts MAX_ATTEMPTS st

/-- The unary handler's response: `503` with the stable error body when the
    rotation returns `null`, else `200` with the unwrapped result. -/
def handleGenerateContentResult (env : Nat → UnaryOutcome) (model : String) (now : Int)
    (accounts : List Account) (st : EngSt) : Nat × J :=
  match runUnary env model now accounts st with
  | (none, _) => (503, .obj [("error", .str "All Gemini accounts exhausted or failed.")])
  | (some d, _) => (200, d)

/-! ### Streaming rotation (`streamWithAccounts`, lines 324–462) -/

/-- The outcome of one `nativeFetchStream` interaction: a thrown error, or a
    status together with the stream's behaviour — the SSE lines it delivers,
    an optional terminal error, and its drained text (read only on
    non-success paths). -/
inductive StreamOutcome where
  | throwErr (msg : String)
  | resp (status : Nat) (frames : List Frame) (streamErr : Option String) (drainText : String)

/-- The success path: commit SSE headers unless already sent, pipe, and on a
    pipe error either end the committed response and stop, or fall back to
    the next account. -/
def streamRunSuccess (now : Int) (headersAlreadySent : Bool) (st : EngSt)
    (account : Account) (frames : List Frame) (streamErr : Option String) : Bool × EngSt :=
  let res1 :=
    if !headersAlreadySent && !st.res.headersSent then resWriteHead200SSE st.res else st.res
  match pipeStream (!headersAlreadySent) frames streamErr res1 with
  | (res2, .ok (fullAnswer, tokenUsage)) =>
    let st := { st with res := res2 }
    let st := { st with cooldowns := markAccountSuccess st.cooldowns account.email }
    let st := addEv st (.stats account.email 1 0 tokenUsage)
    let st := addEv st (.log account.email fullAnswer true)
    (true, st)
  | (res2, .error msg) =>
    let cat := classifyError msg
    let st := { st with res := res2 }
    let st := { st with cooldowns := markAccountCooldown now st.cooldowns account.email cat }
    let st := addEv st (.stats account.email 0 1 0)
    if st.res.headersSent then
      (true, { st with res := if st.res.writableEnded then st.res else resEnd st.res })
    else (false, st)

/-- Streaming 429 cooldown tail (drain, classify, cooldown, count failure). -/
def stream429Cooldown (now : Int) (st : EngSt) (account : Account) (drainText : String) :
    Bool × EngSt :=
  let cat := classify429 drainText
  let marked := markAccountCooldown now st.cooldowns account.email
    (if cat = .quota then .quota else .rate_limit)
  let st := { st with cooldowns := marked }
  let st := addEv st (.stats account.email 0 1 0)
  (false, st)

/-- The `catch (e)` branch of the streaming loop body. -/
def streamCatch (now : Int) (st : EngSt) (account : Account) (msg : String) : Bool × EngSt :=
  let cat := classifyError msg
  let st := { st with cooldowns := markAccountCooldown now st.cooldowns account.email cat }
  let st := addEv st (.stats account.email 0 1 0)
  (false, st)

/-- The `try` block of one streaming account iteration. -/
def streamTryAccount (env : Nat → StreamOutcome) (model : String) (now : Int)
    (headersAlreadySent : Bool) (st : EngSt) (account : Account) : Bool × EngSt :=
  let usedModel := if model = "" then DEFAULT_MODEL else model
  match env st.callIdx with
  | .throwErr msg => streamCatch now st account msg
  | .resp status frames streamErr drainText =>
    let st := addEv { st with callIdx := st.callIdx + 1 } (.fetch usedModel)
    if status = 429 then
      match getFallbackModel usedModel with
      | some fallback =>
        (match env st.callIdx with
         | .throwErr msg => streamCatch now st account msg
         | .resp fbStatus fbFrames fbStreamErr _fbDrain =>
           let st := addEv { st with callIdx := st.callIdx + 1 } (.fetch fallback)
           if fbStatus = 200 then
             streamRunSuccess now headersAlreadySent st account fbFrames fbStreamErr
           else
             stream429Cooldown now st account drainText)
      | none => stream429Cooldown now st account drainText
    else if status < 200 || 300 ≤ status then
      let st := addEv st (.stats account.email 0 1 0)
      (false, st)
    else
      streamRunSuccess now headersAlreadySent st account frames streamErr

/-- One round of the streaming rotation.  Note: unlike the unary round, the
    per-account body has no client-side rate-limit gate. -/
def streamIterate (env : Nat → StreamOutcome) (model : String) (now : Int)
    (headersAlreadySent : Bool) : List Account → EngSt → Bool × EngSt
  | [], st => (false, st)
  | account :: rest, st =>
    let gate := isAccountInCooldown now st.cooldowns account.email
    let st := { st with cooldowns := gate.2 }
    if gate.1 && !(shouldProbeAccount now st.cooldowns account.email) then
      streamIterate env model now headersAlreadySent rest st
    else
      let st :=
        if gate.1 then { st with cooldowns := recordProbe now st.cooldowns account.email }
        else st
      match streamTryAccount env model now headersAlreadySent st account with
      | (true, st1) => (true, st1)
      | (false, st1) => streamIterate env model now headersAlreadySent rest st1

/-- The all-exhausted epilogue (both the empty-account-list branch and the
    post-loop branch execute this same code). -/
def streamExhausted (st : EngSt) : EngSt :=
  if !st.res.headersSent then
    let body : J := .obj [("error", .str "All Gemini accounts exhausted or failed.")]
    { st with res := resStatusJson st.res 503 body }
  else if !st.res.writableEnded then
    let frame := "data: " ++ stringify (.obj [("error", .str "All accounts exhausted.")]) ++ "\n\n"
    { st with res := resEnd (resWrite st.res frame) }
  else st

/-- `streamWithAccounts`. -/
def streamWithAccounts (env : Nat → StreamOutcome) (model : String) (now : Int)
    (accounts : List Account) (headersAlreadySent : Bool) : Nat → EngSt → EngSt
  | 0, st => streamExhausted st
  | Nat.succ fuel, st =>
    let st := { st with cooldowns := (clearExpiredCooldowns now st.cooldowns).2 }
    if accounts.isEmpty then streamExhausted st
    else
      match streamIterate env model now headersAlreadySent accounts st with
      | (true, st1) => st1
      | (false, st1) => streamWithAccounts env model now accounts headersAlreadySent fuel st1

def runStream (env : Nat → StreamOutcome) (model : String) (now : Int)
    (accounts : List Account) (headersAlreadySent : Bool) (st : EngSt) : EngSt :=
  streamWithAccounts env model now accounts headersAlreadySent MAX_ATTEMPTS st

/-! ## Map lemmas -/

theorem mapGet_set_self {α : Type} (m : List (String × α)) (k : String) (v : α) :
    mapGet (mapSet m k v) k = some v := by
  induction m with
  | nil => simp [mapSet, mapGet]
  | cons e rest ih =>
    obtain ⟨k', v'⟩ := e
    by_cases h : k' = k
    · simp [mapSet, h, mapGet]
    · simp [mapSet, h, mapGet, ih]

theorem mapSet_set_same {α : Type} (m : List (String × α)) (k : String) (v w : α) :
    mapSet (mapSet m k v) k w = mapSet m k w := by
  induction m with
  | nil => simp [mapSet]
  | cons e rest ih =>
    obtain ⟨k', v'⟩ := e
    by_cases h : k' = k
    · simp [mapSet, h]
    · simp [mapSet, h, ih]

theorem mapGet_del_self {α : Type} (m : List (String × α)) (k : String) :
    mapGet (mapDel m k) k = none := by
  induction m with
  | nil => rfl
  | cons e rest ih =>
    by_cases h : e.1 = k
    · simpa [mapDel, List.filter_cons, h] using ih
    · simp only [mapDel, List.filter_cons] at ih ⊢
      simp [h, mapGet, ih]

theorem mapGet_filter_sound {α : Type} (p : String × α → Bool) (m : List (String × α))
    (k : String) (v : α) : mapGet (m.filter p) k = some v → p (k, v) = true := by
  induction m with
  | nil => intro h; simp [mapGet] at h
  | cons e rest ih =>
    intro h
    obtain ⟨k', v'⟩ := e
    by_cases hp : p (k', v')
    · rw [List.filter_cons_of_pos hp] at h
      by_cases hk : k' = k
      · subst hk
        simp [mapGet] at h
        exact h ▸ hp
      · simp only [mapGet, if_neg hk] at h
        exact ih h
    · rw [List.filter_cons_of_neg hp] at h
      exact ih h

theorem mapGet_filter_keep {α : Type} (p : String × α → Bool) (m : List (String × α))
    (k : String) (v : α) (h : mapGet m k = some v) (hp : p (k, v) = true) :
    mapGet (m.filter p) k = some v := by
  induction m with
  | nil => simp [mapGet] at h
  | cons e rest ih =>
    obtain ⟨k', v'⟩ := e
    by_cases hk : k' = k
    · subst hk
      simp [mapGet] at h
      subst h
      rw [List.filter_cons_of_pos hp]
      simp [mapGet]
    · simp only [mapGet, hk, if_neg] at h
      by_cases hpe : p (k', v')
      · rw [List.filter_cons_of_pos hpe]
        simp [mapGet, hk, ih h]
      · rw [List.filter_cons_of_neg hpe]
        exact ih h

theorem markSuccess_get (m : CooldownMap) (email : String) :
    mapGet (markAccountSuccess m email) email = none := by
  cases hm : mapGet m email <;>
    simp [markAccountSuccess, clearAccountCooldown, hm, mapGet_del_self]

/-! ## Claim theorems: cooldown registry -/

/-- The cooldown map after `n` successive rate-limit marks of one account,
    starting from an empty registry. -/
def rateLimitMarks (now : Int) (email : String) : Nat → CooldownMap
  | 0 => []
  | n + 1 => markAccountCooldown now (rateLimitMarks now email n) email .rate_limit

theorem markCooldown_get (now : Int) (m : CooldownMap) (email : String)
    (category : ErrorCategory) :
    mapGet (markAccountCooldown now m email category) email =
      some ⟨now + calculateCooldownMs category
              ((match mapGet m email with | some st => st.failureCount | none => 0) + 1),
            category,
            (match mapGet m email with | some st => st.failureCount | none => 0) + 1,
            (match mapGet m email with | some st => st.lastProbeAt | none => none)⟩ := by
  unfold markAccountCooldown
  cases hm : mapGet m email <;> simp [hm, mapGet_set_self]

theorem calc_rate_limit (n : Nat) :
    calculateCooldownMs .rate_limit (n + 1) = min (15000 * 2 ^ n) 120000 := by
  simp only [calculateCooldownMs, RATE_LIMIT_COOLDOWN_MS, Nat.add_sub_cancel]
  norm_num

/-- C6: `markCooldown(id, category)` increments `failureCount` and sets
    `cooldownUntil = now + d`, where `d` is 15 s × 2^(failureCount−1) capped
    at 120 s for rate_limit and overloaded (so an identity marked rate_limit
    N times in succession gets durations 15 s, 30 s, 60 s, 120 s, 120 s, …),
    a constant 60 minutes for quota regardless of `failureCount`, effectively
    infinite (`Number.MAX_SAFE_INTEGER`) for auth and billing, 5 s for
    timeout, and 15 s for any other category. -/
theorem C6_cooldown_durations (now : Int) (m : CooldownMap) (email : String)
    (category : ErrorCategory) :
    (∀ n : Nat,
      calculateCooldownMs .rate_limit n = min (15000 * 2 ^ (n - 1)) 120000 ∧
      calculateCooldownMs .overloaded n = min (15000 * 2 ^ (n - 1)) 120000 ∧
      calculateCooldownMs .quota n = 60 * 60 * 1000 ∧
      calculateCooldownMs .auth n = MAX_SAFE_INTEGER ∧
      calculateCooldownMs .billing n = MAX_SAFE_INTEGER ∧
      calculateCooldownMs .timeout n = 5000 ∧
      calculateCooldownMs .model_not_found n = 15000 ∧
      calculateCooldownMs .format n = 15000 ∧
      calculateCooldownMs .unknown n = 15000) ∧
    (mapGet (markAccountCooldown now m email category) email =
      some ⟨now + calculateCooldownMs category
              ((match mapGet m email with | some st => st.failureCount | none => 0) + 1),
            category,
            (match mapGet m email with | some st => st.failureCount | none => 0) + 1,
            (match mapGet m email with | some st => st.lastProbeAt | none => none)⟩) ∧
    (∀ n : Nat, mapGet (rateLimitMarks now email (n + 1)) email =
      some ⟨now + min (15000 * 2 ^ n) 120000, .rate_limit, n + 1, none⟩) ∧
    ((List.range 5).map (fun k =>
        (mapGet (rateLimitMarks 0 "a" (k + 1)) "a").map (fun st => st.cooldownUntil)) =
      [some 15000, some 30000, some 60000, some 120000, some 120000]) := by
  refine ⟨?_, markCooldown_get now m email category, ?_, by decide⟩
  · intro n
    refine ⟨?_, ?_, ?_, ?_, ?_, ?_, ?_, ?_, ?_⟩ <;>
      simp [calculateCooldownMs, RATE_LIMIT_COOLDOWN_MS, QUOTA_COOLDOWN_MS]
  · intro n
    induction n with
    | zero =>
      rw [rateLimitMarks, markCooldown_get]
      simp [rateLimitMarks, mapGet, calc_rate_limit 0]
    | succ k ih =>
      rw [rateLimitMarks, markCooldown_get, ih]
      simp [calc_rate_limit (k + 1)]

/-- C7: CooldownState lifecycle — an entry is created on an identity's first
    failure, replaced with an incremented `failureCount` on each new failure,
    and deleted only by `markSuccess`, by manual clear, or by a read
    (`inCooldown` / `clearExpired`) after `cooldownUntil` has passed; after
    `markSuccess`, `inCooldown` is false and `failureCount` is forgotten, so
    a subsequent rate_limit mark restarts at 15 s. -/
theorem C7_cooldown_lifecycle (now : Int) (m : CooldownMap) (email : String)
    (category : ErrorCategory) :
    (mapGet m email = none →
      mapGet (markAccountCooldown now m email category) email =
        some ⟨now + calculateCooldownMs category 1, category, 1, none⟩) ∧
    (∀ st, mapGet m email = some st →
      mapGet (markAccountCooldown now m email category) email =
        some ⟨now + calculateCooldownMs category (st.failureCount + 1), category,
              st.failureCount + 1, st.lastProbeAt⟩) ∧
    (mapGet (markAccountSuccess m email) email = none) ∧
    ((isAccountInCooldown now (markAccountSuccess m email) email).1 = false) ∧
    (mapGet (markAccountCooldown now (markAccountSuccess m email) email .rate_limit) email =
      some ⟨now + 15000, .rate_limit, 1, none⟩) ∧
    (mapGet (clearAccountCooldown m email) email = none) ∧
    (∀ st, mapGet m email = some st → now ≥ st.cooldownUntil →
      isAccountInCooldown now m email = (false, mapDel m email)) ∧
    (∀ st, mapGet m email = some st → now < st.cooldownUntil →
      isAccountInCooldown now m email = (true, m)) ∧
    (∀ st, mapGet (clearExpiredCooldowns now m).2 email = some st →
      now < st.cooldownUntil) ∧
    (∀ st, mapGet m email = some st → now < st.cooldownUntil →
      mapGet (clearExpiredCooldowns now m).2 email = some st) ∧
    (∀ st, mapGet m email = some st →
      mapGet (recordProbe now m email) email = some { st with lastProbeAt := some now }) := by
  refine ⟨?_, ?_, markSuccess_get m email, ?_, ?_, mapGet_del_self m email, ?_, ?_, ?_, ?_, ?_⟩
  · intro h
    rw [markCooldown_get, h]
  · intro st h
    rw [markCooldown_get, h]
  · simp [isAccountInCooldown, markSuccess_get]
  · rw [markCooldown_get, markSuccess_get]
    norm_num [calculateCooldownMs, RATE_LIMIT_COOLDOWN_MS]
  · intro st h hexp
    simp [isAccountInCooldown, h, hexp, clearAccountCooldown]
  · intro st h hlive
    simp [isAccountInCooldown, h, not_le.mpr hlive]
  · intro st h
    have hs := mapGet_filter_sound _ m email st h
    simp only [Bool.not_eq_true', decide_eq_false_iff_not, not_le] at hs
    exact hs
  · intro st h hlive
    refine mapGet_filter_keep _ m email st h ?_
    simp only [Bool.not_eq_true', decide_eq_false_iff_not, not_le]
    exact hlive
  · intro st h
    simp [recordProbe, h, mapGet_set_self]

/-- Witness for `C7_cooldown_lifecycle`: a replacement mark on an existing
    rate_limit entry with two prior failures. -/
theorem C7_cooldown_lifecycle_witness :
    mapGet [("a", (⟨100, .rate_limit, 2, none⟩ : AccountCooldownState))] "a" =
      some ⟨100, .rate_limit, 2, none⟩ ∧
    mapGet (markAccountCooldown 50 [("a", ⟨100, .rate_limit, 2, none⟩)] "a" .quota) "a" =
      some ⟨50 + calculateCooldownMs .quota 3, .quota, 3, none⟩ := by
  refine ⟨by decide, ?_⟩
  exact (C7_cooldown_lifecycle 50 [("a", ⟨100, .rate_limit, 2, none⟩)] "a" .quota).2.1
    ⟨100, .rate_limit, 2, none⟩ (by decide)

/-! ## Claim theorems: rate limiter -/

/-- C8: the per-identity rate limiter is a fixed window with cap 60 requests
    per 60 s: an expired (or absent) stored window is reset to
    `{count := 0, windowStartAt := now}` before checking; within a window a
    call below the cap is admitted with `remaining = cap − count` (the count
    after the increment), a call at the cap is rejected with `retryAfter`
    equal to the time left in the window; the first consume after the window
    has fully elapsed with no calls is admitted with `remaining = 59`. -/
theorem C8_rate_limiter (buckets : BucketMap) (key : String) (now : Int) :
    (rlNormalize RATE_LIMIT_MAX = 60 ∧ rlNormalize RATE_LIMIT_WINDOW_MS = 60000) ∧
    (mapGet buckets key = none →
      accountConsume buckets key now =
        ({ allowed := true, retryAfterMs := 0, remaining := 59 },
          mapSet buckets key ⟨1, now⟩)) ∧
    (∀ b, mapGet buckets key = some b → now - b.windowStartMs ≥ 60000 →
      accountConsume buckets key now =
        ({ allowed := true, retryAfterMs := 0, remaining := 59 },
          mapSet buckets key ⟨1, now⟩)) ∧
    (∀ b, mapGet buckets key = some b → now - b.windowStartMs < 60000 → b.count < 60 →
      accountConsume buckets key now =
        ({ allowed := true, retryAfterMs := 0, remaining := 60 - (b.count + 1) },
          mapSet buckets key ⟨b.count + 1, b.windowStartMs⟩)) ∧
    (∀ b, mapGet buckets key = some b → now - b.windowStartMs < 60000 → b.count ≥ 60 →
      accountConsume buckets key now =
        ({ allowed := false, retryAfterMs := max 0 (b.windowStartMs + 60000 - now),
           remaining := 0 }, buckets) ∧
        (b.windowStartMs ≤ now →
          max 0 (b.windowStartMs + 60000 - now) = b.windowStartMs + 60000 - now)) ∧
    (accountConsume [(key, ⟨60, now - 60000⟩)] key now =
      ({ allowed := true, retryAfterMs := 0, remaining := 59 },
        [(key, ⟨1, now⟩)])) := by
  have hnorm : rlNormalize RATE_LIMIT_MAX = 60 ∧ rlNormalize RATE_LIMIT_WINDOW_MS = 60000 := by
    constructor <;> norm_num [rlNormalize, RATE_LIMIT_MAX, RATE_LIMIT_WINDOW_MS]
  refine ⟨hnorm, ?_, ?_, ?_, ?_, ?_⟩
  · intro h
    simp only [accountConsume, consume, hnorm.1, hnorm.2, h]
    norm_num [mapSet_set_same]
  · intro b h hexp
    simp only [accountConsume, consume, hnorm.1, hnorm.2, h]
    rw [if_pos hexp]
    norm_num [mapSet_set_same]
  · intro b h hlive hcount
    simp only [accountConsume, consume, hnorm.1, hnorm.2, h]
    rw [if_neg (not_le.mpr hlive), if_neg (not_le.mpr hcount)]
    have : max 0 (60 - (b.count + 1)) = 60 - (b.count + 1) := by omega
    simp [this]
  · intro b h hlive hcap
    refine ⟨?_, fun hws => by omega⟩
    simp only [accountConsume, consume, hnorm.1, hnorm.2, h]
    rw [if_neg (not_le.mpr hlive), if_pos hcap]
  · simp only [accountConsume, consume, hnorm.1, hnorm.2, mapGet]
    norm_num [mapSet, mapSet_set_same, mapGet]

/-- Witness for `C8_rate_limiter`: an at-cap bucket inside a live window is
    rejected with the window's remaining time as `retryAfter`. -/
theorem C8_rate_limiter_witness :
    mapGet [("a", (⟨60, 0⟩ : Bucket))] "a" = some ⟨60, 0⟩ ∧
    (0 : Int) - 0 < 60000 ∧ ((60 : Int) ≥ 60) ∧
    accountConsume [("a", ⟨60, 0⟩)] "a" 0 =
      ({ allowed := false, retryAfterMs := max 0 ((0 : Int) + 60000 - 0), remaining := 0 },
        [("a", ⟨60, 0⟩)]) := by
  refine ⟨by decide, by decide, by decide, ?_⟩
  exact ((C8_rate_limiter [("a", ⟨60, 0⟩)] "a" 0).2.2.2.2.1 ⟨60, 0⟩ (by decide) (by decide)
    (by decide)).1

/-! ## Claim theorems: error classifier -/

/-- C5: `classify` is total — every input maps to one of the nine
    categories — and the match order is fixed: first the leading three-digit
    status shortcuts (429 → quota when a quota phrase matches, else
    rate_limit; 401/403 → auth; 402 → billing; 404 → model_not_found; 408 and
    the transient set {500, 502, 503, 504, 521–524, 529} → timeout), then the
    pattern banks in the order model-not-found, quota, rate_limit,
    overloaded, auth, format, billing, timeout, and finally unknown;
    consequently an input containing both "unknown model" and
    "quota exceeded" classifies as model_not_found, and one containing both
    "quota exceeded" and "429 rate limit" classifies as quota. -/
theorem C5_classifier_total_ordered (t : String) :
    classifyError t ∈ [ErrorCategory.rate_limit, .quota, .auth, .timeout, .overloaded,
      .billing, .model_not_found, .format, .unknown] ∧
    (∀ s, t ≠ "" → extractHttpStatus t = some s → s ≠ 0 →
      ((s = 429 → classifyError t = if matchesQuota t then .quota else .rate_limit) ∧
       (s = 401 ∨ s = 403 → classifyError t = .auth) ∧
       (s = 402 → classifyError t = .billing) ∧
       (s = 404 → classifyError t = .model_not_found) ∧
       (s = 408 → classifyError t = .timeout) ∧
       (s ∈ TRANSIENT_HTTP_ERROR_CODES → classifyError t = .timeout))) ∧
    (t ≠ "" → statusShortcut t = none →
      ((matchesModelNotFound t = true → classifyError t = .model_not_found) ∧
       (matchesModelNotFound t = false → matchesQuota t = true →
         classifyError t = .quota) ∧
       (matchesModelNotFound t = false → matchesQuota t = false →
         matchesRateLimit t = true → classifyError t = .rate_limit) ∧
       (matchesModelNotFound t = false → matchesQuota t = false →
         matchesRateLimit t = false → matchesOverloaded t = true →
         classifyError t = .overloaded) ∧
       (matchesModelNotFound t = false → matchesQuota t = false →
         matchesRateLimit t = false → matchesOverloaded t = false →
         matchesAuth t = true → classifyError t = .auth) ∧
       (matchesModelNotFound t = false → matchesQuota t = false →
         matchesRateLimit t = false → matchesOverloaded t = false →
         matchesAuth t = false → matchesFormat t = true →
         classifyError t = .format) ∧
       (matchesModelNotFound t = false → matchesQuota t = false →
         matchesRateLimit t = false → matchesOverloaded t = false →
         matchesAuth t = false → matchesFormat t = false →
         matchesBilling t = true → classifyError t = .billing) ∧
       (matchesModelNotFound t = false → matchesQuota t = false →
         matchesRateLimit t = false → matchesOverloaded t = false →
         matchesAuth t = false → matchesFormat t = false →
         matchesBilling t = false → matchesTimeout t = true →
         classifyError t = .timeout) ∧
       (matchesModelNotFound t = false → matchesQuota t = false →
         matchesRateLimit t = false → matchesOverloaded t = false →
         matchesAuth t = false → matchesFormat t = false →
         matchesBilling t = false → matchesTimeout t = false →
         classifyError t = .unknown))) ∧
    classifyError "unknown model quota exceeded" = .model_not_found ∧
    classifyError "quota exceeded 429 rate limit" = .quota := by
  have hcl : t ≠ "" → ∀ c, statusShortcut t = some c → classifyError t = c := by
    intro ht c hc
    simp [classifyError, ht, hc]
  refine ⟨?_, ?_, ?_, by decide, by decide⟩
  · cases h : classifyError t <;> simp
  · intro s ht hx h0
    refine ⟨?_, ?_, ?_, ?_, ?_, ?_⟩
    · rintro rfl
      exact hcl ht _ (by simp [statusShortcut, hx])
    · rintro (rfl | rfl) <;> exact hcl ht _ (by simp [statusShortcut, hx])
    · rintro rfl
      exact hcl ht _ (by simp [statusShortcut, hx])
    · rintro rfl
      exact hcl ht _ (by simp [statusShortcut, hx])
    · rintro rfl
      exact hcl ht _ (by simp [statusShortcut, hx])
    · intro hmem
      simp [TRANSIENT_HTTP_ERROR_CODES] at hmem
      rcases hmem with rfl | rfl | rfl | rfl | rfl | rfl | rfl | rfl | rfl <;>
        exact hcl ht _ (by simp [statusShortcut, hx, TRANSIENT_HTTP_ERROR_CODES])
  · intro ht hsc
    have hb : classifyError t =
        (if matchesModelNotFound t then .model_not_found
         else if matchesQuota t then .quota
         else if matchesRateLimit t then .rate_limit
         else if matchesOverloaded t then .overloaded
         else if matchesAuth t then .auth
         else if matchesFormat t then .format
         else if matchesBilling t then .billing
         else if matchesTimeout t then .timeout
         else .unknown) := by
      simp [classifyError, ht, hsc]
    refine ⟨?_, ?_, ?_, ?_, ?_, ?_, ?_, ?_, ?_⟩ <;>
      (intros; simp_all [hb])

/-- Witness for `C5_classifier_total_ordered`: the input "404 model missing"
    carries the leading status 404 and no model-not-found bank phrase, and
    the shortcut decides the category. -/
theorem C5_classifier_total_ordered_witness :
    classifyError "404 model missing" = .model_not_found ∧
    ("404 model missing" : String) ≠ "" ∧
    extractHttpStatus "404 model missing" = some 404 := by
  refine ⟨?_, by decide, by decide⟩
  exact ((C5_classifier_total_ordered "404 model missing").2.1 404 (by decide) (by decide)
    (by decide)).2.2.2.1 rfl

/-! ## Claim theorems: backoff policy -/

/-- C9 counterexample: the claim requires that, whenever an upstream
    `Retry-After` header is present, its value replaces the exponential term
    as the backoff base.  The engine's `computeBackoffDelay` is a function of
    the attempt number and the jitter sample alone — at attempt 0 with a
    centred jitter sample it returns 2000 ms, whereas the spec-modelled
    computation with a 30 s `Retry-After` hint returns 30000 ms. -/
theorem C9_counterexample :
    computeBackoffDelay 0 (1 / 2) = 2000 ∧
    specBackoffWithRetryAfter 0 (some 30000) (1 / 2) = 30000 ∧
    computeBackoffDelay 0 (1 / 2) ≠ specBackoffWithRetryAfter 0 (some 30000) (1 / 2) := by
  refine ⟨?_, ?_, ?_⟩ <;>
    norm_num [computeBackoffDelay, specBackoffWithRetryAfter, applyJitter, jsRound,
      BASE_RETRY_DELAY_MS, MAX_RETRY_DELAY_MS, JITTER_FACTOR]

/-- C9 (amended): the inter-round backoff delay equals
    `min(2^attempt · 2 s, 60 s)` scaled by a uniformly sampled jitter factor
    in [0.8, 1.2] and rounded; no upstream `Retry-After` header is consulted
    (the delay depends only on the attempt number and the jitter sample). -/
theorem C9_backoff_jitter (attempt : Nat) (rand : ℚ) (h0 : 0 ≤ rand) (h1 : rand < 1) :
    ∃ f : ℚ, 4 / 5 ≤ f ∧ f ≤ 6 / 5 ∧
      computeBackoffDelay attempt rand =
        max 0 (jsRound (min (BASE_RETRY_DELAY_MS * 2 ^ attempt) MAX_RETRY_DELAY_MS * f)) := by
  refine ⟨1 + (rand * 2 - 1) * JITTER_FACTOR, ?_, ?_, rfl⟩
  · rw [JITTER_FACTOR]
    linarith
  · rw [JITTER_FACTOR]
    linarith

/-- Witness for `C9_backoff_jitter` at attempt 0 with sample 1/2. -/
theorem C9_backoff_jitter_witness :
    (0 : ℚ) ≤ 1 / 2 ∧ (1 / 2 : ℚ) < 1 ∧
    ∃ f : ℚ, 4 / 5 ≤ f ∧ f ≤ 6 / 5 ∧
      computeBackoffDelay 0 (1 / 2) =
        max 0 (jsRound (min (BASE_RETRY_DELAY_MS * 2 ^ 0) MAX_RETRY_DELAY_MS * f)) :=
  ⟨by norm_num, by norm_num, C9_backoff_jitter 0 (1 / 2) (by norm_num) (by norm_num)⟩

/-! ## Claim theorems: SSE pipe -/

/-- The example envelope frame of the spec's SSE-unwrap property, with a
    concrete candidates array. -/
def c4ExampleParsed : J :=
  .obj [("response", .obj [("candidates",
          .arr [.obj [("content", .obj [("parts", .arr [.obj [("text", .str "hi")]])])]])]),
        ("usageMetadata", .obj [("totalTokenCount", .num 7)])]

def c4ExampleLine : String :=
  "data: \x7b\"response\":\x7b\"candidates\":[\x7b\"content\":\x7b\"parts\":[\x7b\"text\":\"hi\"\x7d]\x7d\x7d]\x7d,\"usageMetadata\":\x7b\"totalTokenCount\":7\x7d\x7d"

def c4ExampleFrame : Frame := { line := c4ExampleLine, parsed := some c4ExampleParsed }

set_option maxRecDepth 8192 in
/-- C4: for every upstream SSE frame forwarded by the public streaming
    endpoint, a frame whose JSON has a `response` field is rewritten to the
    unwrapped form (the contents of `response`, with any outer `usageMetadata`
    merged into it), a frame that fails to parse as JSON is forwarded
    verbatim, and on end-of-stream exactly one final `data: [DONE]` frame is
    emitted before the response ends; the example envelope frame with
    `usageMetadata.totalTokenCount = 7` is forwarded in the unwrapped form. -/
theorem C4_sse_unwrap (acc : PipeAcc) (f : Frame) (frames : List Frame)
    (res : ResState) (u : Bool) :
    (∀ p r, strStartsWith f.line "data: " = true →
      jsTrim (strDrop f.line 6) ≠ "" → jsTrim (strDrop f.line 6) ≠ "[DONE]" →
      f.parsed = some p → p.get? "response" = some r → r.truthy = true →
      (pipeLine true acc f).res.writes = acc.res.writes ++
        ["data: " ++ stringify (match p.get? "usageMetadata" with
            | some um => if um.truthy then r.setField "usageMetadata" um else r
            | none => r) ++ "\n\n"]) ∧
    (strStartsWith f.line "data: " = true →
      jsTrim (strDrop f.line 6) ≠ "" → jsTrim (strDrop f.line 6) ≠ "[DONE]" →
      f.parsed = none →
      (pipeLine u acc f).res.writes = acc.res.writes ++ [f.line ++ "\n\n"]) ∧
    ((pipeStream u frames none res).1.writes =
      (frames.foldl (pipeLine u) { fullAnswer := "", tokenUsage := 0, res := res }).res.writes
        ++ [DONE_FRAME] ∧
     (pipeStream u frames none res).1.writableEnded = true) ∧
    (∀ pj, pipeLine u acc { line := "data: [DONE]", parsed := pj } = acc) ∧
    ((pipeLine true { fullAnswer := "", tokenUsage := 0, res := freshRes } c4ExampleFrame).res.writes
      = ["data: \x7b\"candidates\":[\x7b\"content\":\x7b\"parts\":[\x7b\"text\":\"hi\"\x7d]\x7d\x7d],\"usageMetadata\":\x7b\"totalTokenCount\":7\x7d\x7d\n\n"]) := by
  refine ⟨?_, ?_, ?_, ?_, by rfl⟩
  · intro p r hstart hne hdone hp hr hrt
    simp [pipeLine, hstart, hne, hdone, hp, hr, hrt, resWrite]
  · intro hstart hne hdone hp
    simp [pipeLine, hstart, hne, hdone, hp, resWrite]
  · constructor <;> simp [pipeStream, resWrite, resEnd]
  · intro pj
    have h1 : strStartsWith "data: [DONE]" "data: " = true := by decide
    have h2 : jsTrim (strDrop "data: [DONE]" 6) = "[DONE]" := by decide
    simp [pipeLine, h1, h2]

set_option maxRecDepth 8192 in
/-- Witness for `C4_sse_unwrap`: the unwrap law applied to the concrete
    example frame. -/
theorem C4_sse_unwrap_witness :
    (pipeLine true { fullAnswer := "", tokenUsage := 0, res := freshRes } c4ExampleFrame).res.writes
      = freshRes.writes ++
        ["data: " ++ stringify (match c4ExampleParsed.get? "usageMetadata" with
            | some um => if um.truthy then
                (J.obj [("candidates",
                  .arr [.obj [("content", .obj [("parts",
                    .arr [.obj [("text", .str "hi")]])])]])]).setField "usageMetadata" um
              else (J.obj [("candidates",
                .arr [.obj [("content", .obj [("parts",
                  .arr [.obj [("text", .str "hi")]])])]])])
            | none => (J.obj [("candidates",
                .arr [.obj [("content", .obj [("parts",
                  .arr [.obj [("text", .str "hi")]])])]])])) ++ "\n\n"] :=
  (C4_sse_unwrap { fullAnswer := "", tokenUsage := 0, res := freshRes } c4ExampleFrame []
    freshRes true).1 c4ExampleParsed _ (by decide) (by decide) (by decide) rfl rfl rfl

/-! ## Claim theorems: unary rotation -/

/-- Upstream-call events. -/
def isFetchEv : Ev → Bool
  | .fetch _ => true
  | _ => false

/-- The non-fetch events of a log (stat updates and request-log entries). -/
def nonFetchEvents (l : List Ev) : List Ev := l.filter (fun e => !isFetchEv e)

theorem unaryStep_empty200 (env : Nat → UnaryOutcome) (model : String) (now : Int)
    (st : EngSt) (account : Account) (body : J) (text : String)
    (henv : env st.callIdx = .resp 200 body text)
    (hempty : extractText (optIdx (optField (body.get? "response") "candidates") 0) = "") :
    unaryTryAccount env model now st account =
      (.cont, addEv { st with callIdx := st.callIdx + 1 }
        (.fetch (if model = "" then DEFAULT_MODEL else model))) := by
  simp [unaryTryAccount, henv, hempty]

/-- An environment in which every upstream call returns HTTP 200 with a body
    whose first candidate yields no content. -/
def AllEmpty200 (env : Nat → UnaryOutcome) : Prop :=
  ∀ n, ∃ body text, env n = .resp 200 body text ∧
    extractText (optIdx (optField (body.get? "response") "candidates") 0) = ""

theorem unaryIterate_empty200 (env : Nat → UnaryOutcome) (model : String) (now : Int)
    (henv : AllEmpty200 env) :
    ∀ (accounts : List Account) (st : EngSt), st.cooldowns = [] →
      (unaryIterate env model now accounts st).1 = none ∧
      (unaryIterate env model now accounts st).2.cooldowns = [] ∧
      nonFetchEvents (unaryIterate env model now accounts st).2.events =
        nonFetchEvents st.events := by
  intro accounts
  induction accounts with
  | nil => intro st h; simp [unaryIterate, h]
  | cons a rest ih =>
    intro st hc
    have hg : isAccountInCooldown now st.cooldowns a.email = (false, st.cooldowns) := by
      rw [hc]; rfl
    cases hrl : (accountConsume st.buckets a.email now).1.allowed
    · have := ih { st with buckets := (accountConsume st.buckets a.email now).2 } hc
      simpa [unaryIterate, hg, hrl] using this
    · obtain ⟨body, text, he, hx⟩ := henv st.callIdx
      have hstep := unaryStep_empty200 env model now
        { st with buckets := (accountConsume st.buckets a.email now).2 } a body text he hx
      have hrec := ih (addEv { st with
          buckets := (accountConsume st.buckets a.email now).2,
          callIdx := st.callIdx + 1 }
        (.fetch (if model = "" then DEFAULT_MODEL else model))) (by simp [addEv, hc])
      have hgoal : unaryIterate env model now (a :: rest) st =
          unaryIterate env model now rest (addEv { st with
            buckets := (accountConsume st.buckets a.email now).2,
            callIdx := st.callIdx + 1 }
            (.fetch (if model = "" then DEFAULT_MODEL else model))) := by
        simp [unaryIterate, hg, hrl, hstep]
      rw [hgoal]
      refine ⟨hrec.1, hrec.2.1, hrec.2.2.trans ?_⟩
      simp [addEv, nonFetchEvents, isFetchEv, List.filter_append]

theorem tryGenerate_empty200 (env : Nat → UnaryOutcome) (model : String) (now : Int)
    (accounts : List Account) (henv : AllEmpty200 env) :
    ∀ (fuel : Nat) (st : EngSt), st.cooldowns = [] →
      (tryGenerateContentWithAccounts env model now accounts fuel st).1 = none ∧
      (tryGenerateContentWithAccounts env model now accounts fuel st).2.cooldowns = [] ∧
      nonFetchEvents (tryGenerateContentWithAccounts env model now accounts fuel st).2.events =
        nonFetchEvents st.events := by
  intro fuel
  induction fuel with
  | zero => intro st h; simp [tryGenerateContentWithAccounts, h]
  | succ k ih =>
    intro st hc
    have hclear : (clearExpiredCooldowns now st.cooldowns).2 = [] := by rw [hc]; rfl
    simp only [tryGenerateContentWithAccounts, hclear]
    by_cases hne : accounts.isEmpty
    · simp [hne, hc]
    · simp only [hne, if_neg, Bool.false_eq_true, not_false_eq_true]
      have hround := unaryIterate_empty200 env model now henv accounts
        { st with cooldowns := [] } rfl
      cases hiter : unaryIterate env model now accounts { st with cooldowns := [] } with
      | mk result st1 =>
        rw [hiter] at hround
        obtain ⟨h1, h2, h3⟩ := hround
        simp only at h1 h2 h3
        subst h1
        have := ih st1 h2
        simp only [this.1, this.2.1, true_and]
        exact this.2.2.trans h3

/-- C10: when an upstream unary call returns HTTP 200 whose first candidate
    contains no non-empty text or functionCall part, the engine records
    nothing for that identity — no stats update, no cooldown, no request-log
    entry — and silently proceeds to the next identity; a run in which every
    identity answers 200 with empty content ends in the 503 exhaustion
    error. -/
theorem C10_empty_content_silent (env : Nat → UnaryOutcome) (model : String) (now : Int)
    (accounts : List Account) (st : EngSt)
    (hc : st.cooldowns = [])
    (henv : AllEmpty200 env) :
    (∀ (st' : EngSt) (account : Account) (body : J) (text : String),
      env st'.callIdx = .resp 200 body text →
      extractText (optIdx (optField (body.get? "response") "candidates") 0) = "" →
      unaryTryAccount env model now st' account =
        (.cont, addEv { st' with callIdx := st'.callIdx + 1 }
          (.fetch (if model = "" then DEFAULT_MODEL else model)))) ∧
    (runUnary env model now accounts st).1 = none ∧
    (runUnary env model now accounts st).2.cooldowns = [] ∧
    nonFetchEvents (runUnary env model now accounts st).2.events =
      nonFetchEvents st.events ∧
    handleGenerateContentResult env model now accounts st =
      (503, .obj [("error", .str "All Gemini accounts exhausted or failed.")]) := by
  have hrun := tryGenerate_empty200 env model now accounts henv MAX_ATTEMPTS st hc
  refine ⟨fun st' account body text he hx =>
      unaryStep_empty200 env model now st' account body text he hx,
    hrun.1, hrun.2.1, hrun.2.2, ?_⟩
  unfold handleGenerateContentResult
  cases hres : runUnary env model now accounts st with
  | mk result st1 =>
    have : result = none := by
      have := hrun.1
      rw [runUnary] at hres
      rw [hres] at this
      exact this
    rw [this]

/-- Witness for `C10_empty_content_silent`: one identity, an environment that
    always answers 200 with an empty body. -/
theorem C10_empty_content_silent_witness :
    ([] : CooldownMap) = [] ∧
    AllEmpty200 (fun _ => .resp 200 (.obj []) "") ∧
    ((runUnary (fun _ => .resp 200 (.obj []) "") "m" 0
        [{ email := "a@x", projectId := "p" }] freshEngSt).1 = none ∧
      handleGenerateContentResult (fun _ => .resp 200 (.obj []) "") "m" 0
          [{ email := "a@x", projectId := "p" }] freshEngSt =
        (503, .obj [("error", .str "All Gemini accounts exhausted or failed.")])) := by
  have hae : AllEmpty200 (fun _ => .resp 200 (.obj []) "") :=
    fun _ => ⟨.obj [], "", rfl, rfl⟩
  have h := C10_empty_content_silent (fun _ => .resp 200 (.obj []) "") "m" 0
    [{ email := "a@x", projectId := "p" }] freshEngSt rfl hae
  exact ⟨rfl, hae, h.2.1, h.2.2.2.2⟩

/-- C2: on a unary HTTP 429, the engine attempts the model-fallback chain
    (flash → pro → pro-3.1) exactly once before marking cooldown; when the
    fallback call returns 200 with non-empty content the request succeeds on
    the fallback model and no cooldown is recorded for the original 429;
    otherwise the original 429 body is classified as quota or rate_limit via
    `classify429`, a cooldown with that category is recorded for the
    identity, and rotation continues with the next identity. -/
theorem C2_unary_429_fallback (env : Nat → UnaryOutcome) (model : String) (now : Int)
    (st : EngSt) (account : Account) (body : J) (text : String)
    (h429 : env st.callIdx = .resp 429 body text) :
    (getFallbackModel DEFAULT_MODEL = some FALLBACK_MODEL ∧
     getFallbackModel FALLBACK_MODEL = some FALLBACK_MODEL_V2 ∧
     getFallbackModel FALLBACK_MODEL_V2 = none) ∧
    (∀ fb fbStatus fbBody fbText,
      getFallbackModel (if model = "" then DEFAULT_MODEL else model) = some fb →
      env (st.callIdx + 1) = .resp fbStatus fbBody fbText →
      (unaryTryAccount env model now st account).2.events.filter isFetchEv =
        st.events.filter isFetchEv ++
          [.fetch (if model = "" then DEFAULT_MODEL else model), .fetch fb]) ∧
    (∀ fb fbStatus fbBody fbText,
      getFallbackModel (if model = "" then DEFAULT_MODEL else model) = some fb →
      env (st.callIdx + 1) = .resp fbStatus fbBody fbText →
      200 ≤ fbStatus → fbStatus < 300 →
      extractText (optIdx (optField (fbBody.get? "response") "candidates") 0) ≠ "" →
      (unaryTryAccount env model now st account).1 =
          .success ((fbBody.get? "response").getD .null) ∧
        mapGet (unaryTryAccount env model now st account).2.cooldowns account.email = none) ∧
    (∀ fb fbStatus fbBody fbText,
      getFallbackModel (if model = "" then DEFAULT_MODEL else model) = some fb →
      env (st.callIdx + 1) = .resp fbStatus fbBody fbText →
      (¬(200 ≤ fbStatus ∧ fbStatus < 300) ∨
        extractText (optIdx (optField (fbBody.get? "response") "candidates") 0) = "") →
      (unaryTryAccount env model now st account).1 = .cont ∧
        (unaryTryAccount env model now st account).2.cooldowns =
          markAccountCooldown now st.cooldowns account.email
            (if classify429 text = .quota then .quota else .rate_limit)) ∧
    (getFallbackModel (if model = "" then DEFAULT_MODEL else model) = none →
      ((unaryTryAccount env model now st account).1 = .cont ∧
       (unaryTryAccount env model now st account).2.cooldowns =
         markAccountCooldown now st.cooldowns account.email
           (if classify429 text = .quota then .quota else .rate_limit) ∧
       (unaryTryAccount env model now st account).2.events.filter isFetchEv =
         st.events.filter isFetchEv ++
           [.fetch (if model = "" then DEFAULT_MODEL else model)])) ∧
    (classify429 text = .quota ∨ classify429 text = .rate_limit) := by
  refine ⟨⟨by decide, by decide, by decide⟩, ?_, ?_, ?_, ?_, ?_⟩
  · intro fb fbStatus fbBody fbText hfb henv2
    simp only [unaryTryAccount, h429, addEv]
    simp only [hfb, henv2]
    norm_num
    split
    · split <;> simp [unary429Cooldown, addEv, isFetchEv, List.filter_append]
    · simp [unary429Cooldown, addEv, isFetchEv, List.filter_append]
  · intro fb fbStatus fbBody fbText hfb henv2 hlo hhi hcontent
    simp [unaryTryAccount, h429, hfb, henv2, hlo, hhi, hcontent, addEv, markSuccess_get]
  · intro fb fbStatus fbBody fbText hfb henv2 hfail
    rcases hfail with hfail | hfail
    · simp [unaryTryAccount, h429, hfb, henv2, hfail, unary429Cooldown, addEv]
    · simp only [unaryTryAccount, h429, addEv]
      simp only [hfb, henv2]
      norm_num
      split <;> simp [hfail, unary429Cooldown, addEv]
  · intro hfb
    simp [unaryTryAccount, h429, hfb, unary429Cooldown, addEv, isFetchEv, List.filter_append]
  · simp only [classify429]
    split
    · exact Or.inl rfl
    · exact Or.inr rfl

/-- Witness for `C2_unary_429_fallback`: the primary call 429s with a quota
    body and the fallback succeeds with content "hi". -/
theorem C2_unary_429_fallback_witness :
    ((fun n => if n = 0 then UnaryOutcome.resp 429 (.obj []) "quota exceeded"
       else .resp 200 (.obj [("response", .obj [("candidates", .arr [.obj [("content",
         .obj [("parts", .arr [.obj [("text", .str "hi")]])])]])])]) "") 0 =
      .resp 429 (.obj []) "quota exceeded") ∧
    (unaryTryAccount (fun n => if n = 0 then UnaryOutcome.resp 429 (.obj []) "quota exceeded"
       else .resp 200 (.obj [("response", .obj [("candidates", .arr [.obj [("content",
         .obj [("parts", .arr [.obj [("text", .str "hi")]])])]])])]) "")
      "gemini-3-flash-preview" 0 freshEngSt { email := "a@x", projectId := "p" }).1 =
      .success (.obj [("candidates", .arr [.obj [("content",
        .obj [("parts", .arr [.obj [("text", .str "hi")]])])]])]) := by
  constructor
  · rfl
  · have h := (C2_unary_429_fallback
      (fun n => if n = 0 then UnaryOutcome.resp 429 (.obj []) "quota exceeded"
        else .resp 200 (.obj [("response", .obj [("candidates", .arr [.obj [("content",
          .obj [("parts", .arr [.obj [("text", .str "hi")]])])]])])]) "")
      "gemini-3-flash-preview" 0 freshEngSt { email := "a@x", projectId := "p" }
      (.obj []) "quota exceeded" rfl).2.2.1
      "gemini-3-pro-preview" 200
      (.obj [("response", .obj [("candidates", .arr [.obj [("content",
        .obj [("parts", .arr [.obj [("text", .str "hi")]])])]])])]) ""
      (by decide) rfl (by decide) (by decide) (by decide)
    exact h.1

/-! ## Claim theorems: rate-limit gate in the two rotation paths -/

theorem streamRunSuccess_buckets (now : Int) (hAS : Bool) (st : EngSt)
    (account : Account) (frames : List Frame) (streamErr : Option String) :
    (streamRunSuccess now hAS st account frames streamErr).2.buckets = st.buckets := by
  simp only [streamRunSuccess]
  split <;> first
  | rfl
  | (split <;> rfl)

theorem streamTryAccount_buckets (env : Nat → StreamOutcome) (model : String) (now : Int)
    (hAS : Bool) (st : EngSt) (account : Account) :
    (streamTryAccount env model now hAS st account).2.buckets = st.buckets := by
  simp only [streamTryAccount]
  split
  · rfl
  · split
    · split
      · split
        · rfl
        · split
          · exact streamRunSuccess_buckets now hAS _ account _ _
          · rfl
      · rfl
    · split
      · rfl
      · exact streamRunSuccess_buckets now hAS _ account _ _

theorem streamIterate_buckets (env : Nat → StreamOutcome) (model : String) (now : Int)
    (hAS : Bool) :
    ∀ (accounts : List Account) (st : EngSt),
      (streamIterate env model now hAS accounts st).2.buckets = st.buckets := by
  intro accounts
  induction accounts with
  | nil => intro st; rfl
  | cons a rest ih =>
    intro st
    simp only [streamIterate]
    split
    · exact ih _
    · split
      · rename_i st1 heq
        have hb := streamTryAccount_buckets env model now hAS
          (if (isAccountInCooldown now st.cooldowns a.email).1 = true then
            { st with cooldowns :=
                recordProbe now (isAccountInCooldown now st.cooldowns a.email).2 a.email }
          else
            { st with cooldowns := (isAccountInCooldown now st.cooldowns a.email).2 }) a
        rw [heq] at hb
        exact hb.trans (by split <;> rfl)
      · rename_i st1 heq
        have hb := streamTryAccount_buckets env model now hAS
          (if (isAccountInCooldown now st.cooldowns a.email).1 = true then
            { st with cooldowns :=
                recordProbe now (isAccountInCooldown now st.cooldowns a.email).2 a.email }
          else
            { st with cooldowns := (isAccountInCooldown now st.cooldowns a.email).2 }) a
        rw [heq] at hb
        exact (ih st1).trans (hb.trans (by split <;> rfl))

theorem streamExhausted_buckets (st : EngSt) :
    (streamExhausted st).buckets = st.buckets := by
  unfold streamExhausted
  split
  · rfl
  · split <;> rfl

theorem streamWithAccounts_buckets (env : Nat → StreamOutcome) (model : String) (now : Int)
    (accounts : List Account) (hAS : Bool) :
    ∀ (fuel : Nat) (st : EngSt),
      (streamWithAccounts env model now accounts hAS fuel st).buckets = st.buckets := by
  intro fuel
  induction fuel with
  | zero => intro st; exact streamExhausted_buckets st
  | succ k ih =>
    intro st
    simp only [streamWithAccounts]
    split
    · exact streamExhausted_buckets _
    · cases hit : streamIterate env model now hAS accounts
        { st with cooldowns := (clearExpiredCooldowns now st.cooldowns).2 } with
      | mk done st1 =>
        have hb : st1.buckets = st.buckets := by
          have := streamIterate_buckets env model now hAS accounts
            { st with cooldowns := (clearExpiredCooldowns now st.cooldowns).2 }
          rw [hit] at this
          simpa using this
        cases done
        · simpa using (ih st1).trans hb
        · simpa using hb

/-- C1 counterexample: the claim asserts that in the streaming path, an
    identity whose rate-limiter `consume` returns `allowed = false` is
    skipped without an upstream call.  With the identity's bucket at the cap
    inside a live window (so `consume` would deny it), the streaming engine
    nevertheless issues the upstream call, and the bucket map is untouched —
    the streaming path never consults the client-side rate limiter. -/
theorem C1_counterexample :
    (accountConsume [("a@x", ⟨60, 0⟩)] "a@x" 100).1.allowed = false ∧
    ((runStream (fun _ => .resp 200 [] none "") "m" 100
        [{ email := "a@x", projectId := "p" }] false
        { freshEngSt with buckets := [("a@x", ⟨60, 0⟩)] }).events.filter isFetchEv =
      [.fetch "m"]) ∧
    (runStream (fun _ => .resp 200 [] none "") "m" 100
        [{ email := "a@x", projectId := "p" }] false
        { freshEngSt with buckets := [("a@x", ⟨60, 0⟩)] }).buckets =
      [("a@x", ⟨60, 0⟩)] := by
  refine ⟨by decide, by rfl, by rfl⟩

/-- C1 (amended): the two rotation entry points share the per-identity
    skeleton of cooldown gate, probe, upstream call and classification, but
    the client-side rate-limit gate exists only in the unary path: a unary
    candidate whose `consume` returns `allowed = false` is skipped without an
    upstream call, while the streaming path never consults the rate limiter
    (its bucket map passes through every streaming run unchanged). -/
theorem C1_rate_limit_gate (env : Nat → UnaryOutcome) (model : String) (now : Int)
    (account : Account) (rest : List Account) (st : EngSt)
    (hcd : (isAccountInCooldown now st.cooldowns account.email).1 = false)
    (hrl : (accountConsume st.buckets account.email now).1.allowed = false) :
    unaryIterate env model now (account :: rest) st =
      unaryIterate env model now rest
        { st with
            cooldowns := (isAccountInCooldown now st.cooldowns account.email).2,
            buckets := (accountConsume st.buckets account.email now).2 } ∧
    (∀ (senv : Nat → StreamOutcome) (hAS : Bool) (accounts : List Account) (fuel : Nat)
        (sst : EngSt),
      (streamWithAccounts senv model now accounts hAS fuel sst).buckets = sst.buckets) := by
  constructor
  · simp [unaryIterate, hcd, hrl]
  · intro senv hAS accounts fuel sst
    exact streamWithAccounts_buckets senv model now accounts hAS fuel sst

/-- Witness for `C1_rate_limit_gate`: a single unary candidate at the cap is
    skipped — the round ends with no upstream call and no events. -/
theorem C1_rate_limit_gate_witness :
    (isAccountInCooldown 100 ([] : CooldownMap) "a@x").1 = false ∧
    (accountConsume [("a@x", ⟨60, 0⟩)] "a@x" 100).1.allowed = false ∧
    unaryIterate (fun _ => .resp 200 (.obj []) "") "m" 100
        [{ email := "a@x", projectId := "p" }]
        { freshEngSt with buckets := [("a@x", ⟨60, 0⟩)] } =
      unaryIterate (fun _ => .resp 200 (.obj []) "") "m" 100 []
        { { freshEngSt with buckets := [("a@x", ⟨60, 0⟩)] } with
            cooldowns := (isAccountInCooldown 100
              ({ freshEngSt with buckets := [("a@x", ⟨60, 0⟩)] } : EngSt).cooldowns "a@x").2,
            buckets := (accountConsume [("a@x", ⟨60, 0⟩)] "a@x" 100).2 } := by
  refine ⟨by decide, by decide, ?_⟩
  exact (C1_rate_limit_gate (fun _ => .resp 200 (.obj []) "") "m" 100
    { email := "a@x", projectId := "p" } []
    { freshEngSt with buckets := [("a@x", ⟨60, 0⟩)] } (by decide) (by decide)).1

/-! ## Claim theorems: streaming header-commit trap -/

theorem pipeLine_res_flags (u : Bool) (acc : PipeAcc) (f : Frame) :
    (pipeLine u acc f).res.headersSent = acc.res.headersSent ∧
    (pipeLine u acc f).res.writableEnded = acc.res.writableEnded := by
  simp only [pipeLine]
  split
  · exact ⟨rfl, rfl⟩
  · split
    · exact ⟨rfl, rfl⟩
    · split <;> exact ⟨rfl, rfl⟩

theorem foldl_pipeLine_flags (u : Bool) :
    ∀ (frames : List Frame) (acc : PipeAcc),
      (frames.foldl (pipeLine u) acc).res.headersSent = acc.res.headersSent ∧
      (frames.foldl (pipeLine u) acc).res.writableEnded = acc.res.writableEnded := by
  intro frames
  induction frames with
  | nil => intro acc; exact ⟨rfl, rfl⟩
  | cons f fs ih =>
    intro acc
    have h1 := pipeLine_res_flags u acc f
    have h2 := ih (pipeLine u acc f)
    simp only [List.foldl_cons]
    exact ⟨h2.1.trans h1.1, h2.2.trans h1.2⟩

/-- C3: in the streaming path, once a 2xx status has been received and
    response headers committed, a stream error ends the downstream response
    cleanly — the piped frames are followed by no `[DONE]` frame and no
    further body (the clean-end termination that a successful stream would
    have appended is exactly the missing `[DONE]`) — and the engine makes no
    further identity or round attempts for the request: the upstream call
    counter stops after this single call, the only recorded events are this
    identity's fetch and failure count, and the pipe error's classification
    is the only cooldown recorded. -/
theorem C3_header_commit_trap (env : Nat → StreamOutcome) (model : String) (now : Int)
    (account : Account) (rest : List Account) (st : EngSt)
    (frames : List Frame) (msg drain : String)
    (hcd : st.cooldowns = [])
    (hh : st.res.headersSent = false)
    (hw : st.res.writableEnded = false)
    (henv : env st.callIdx = .resp 200 frames (some msg) drain) :
    (runStream env model now (account :: rest) false st).res.writableEnded = true ∧
    (runStream env model now (account :: rest) false st).res.writes =
      (frames.foldl (pipeLine true)
        { fullAnswer := "", tokenUsage := 0, res := resWriteHead200SSE st.res }).res.writes ∧
    (pipeStream true frames none (resWriteHead200SSE st.res)).1.writes =
      (frames.foldl (pipeLine true)
        { fullAnswer := "", tokenUsage := 0, res := resWriteHead200SSE st.res }).res.writes
        ++ [DONE_FRAME] ∧
    (runStream env model now (account :: rest) false st).callIdx = st.callIdx + 1 ∧
    (runStream env model now (account :: rest) false st).events =
      st.events ++ [.fetch (if model = "" then DEFAULT_MODEL else model),
        .stats account.email 0 1 0] ∧
    (runStream env model now (account :: rest) false st).cooldowns =
      markAccountCooldown now [] account.email (classifyError msg) := by
  have hgate : isAccountInCooldown now st.cooldowns account.email = (false, st.cooldowns) := by
    rw [hcd]; rfl
  have hclear : (clearExpiredCooldowns now st.cooldowns).2 = [] := by rw [hcd]; rfl
  have hfold := foldl_pipeLine_flags true frames
    { fullAnswer := "", tokenUsage := 0, res := resWriteHead200SSE st.res }
  have hfh : (frames.foldl (pipeLine true)
      { fullAnswer := "", tokenUsage := 0, res := resWriteHead200SSE st.res }).res.headersSent
      = true := hfold.1
  have hfw : (frames.foldl (pipeLine true)
      { fullAnswer := "", tokenUsage := 0, res := resWriteHead200SSE st.res }).res.writableEnded
      = false := hfold.2.trans hw
  have hrun : runStream env model now (account :: rest) false st =
      { cooldowns := markAccountCooldown now [] account.email (classifyError msg)
        buckets := st.buckets
        callIdx := st.callIdx + 1
        events := st.events ++ [.fetch (if model = "" then DEFAULT_MODEL else model),
          .stats account.email 0 1 0]
        res := resEnd (frames.foldl (pipeLine true)
          { fullAnswer := "", tokenUsage := 0, res := resWriteHead200SSE st.res }).res } := by
    simp only [runStream, MAX_ATTEMPTS, streamWithAccounts, hclear]
    simp only [List.isEmpty_cons, Bool.false_eq_true, if_false, if_neg]
    have hstep : streamIterate env model now false (account :: rest)
        { st with cooldowns := [] } =
        (true,
          { cooldowns := markAccountCooldown now [] account.email (classifyError msg)
            buckets := st.buckets
            callIdx := st.callIdx + 1
            events := st.events ++ [.fetch (if model = "" then DEFAULT_MODEL else model),
              .stats account.email 0 1 0]
            res := resEnd (frames.foldl (pipeLine true)
              { fullAnswer := "", tokenUsage := 0, res := resWriteHead200SSE st.res }).res }) := by
      have hg2 : isAccountInCooldown now ([] : CooldownMap) account.email = (false, []) := rfl
      simp only [streamIterate, hg2, streamTryAccount]
      simp [henv, streamRunSuccess, hh, pipeStream, hfw, hfh, addEv, resEnd]
    rw [hstep]
  refine ⟨?_, ?_, ?_, ?_, ?_, ?_⟩ <;> simp [hrun, resEnd, pipeStream, hfw, resWrite]

/-- Witness for `C3_header_commit_trap`: one delivered frame, then a stream
    error, from a fresh engine state. -/
theorem C3_header_commit_trap_witness :
    (freshEngSt.cooldowns = [] ∧ freshEngSt.res.headersSent = false ∧
      freshEngSt.res.writableEnded = false) ∧
    (runStream (fun _ => .resp 200 [{ line := "data: x", parsed := none }] (some "boom") "")
        "m" 0 [{ email := "a@x", projectId := "p" }] false freshEngSt).res.writableEnded =
      true ∧
    (runStream (fun _ => .resp 200 [{ line := "data: x", parsed := none }] (some "boom") "")
        "m" 0 [{ email := "a@x", projectId := "p" }] false freshEngSt).callIdx = 1 := by
  have h := C3_header_commit_trap
    (fun _ => .resp 200 [{ line := "data: x", parsed := none }] (some "boom") "") "m" 0
    { email := "a@x", projectId := "p" } [] freshEngSt
    [{ line := "data: x", parsed := none }] "boom" "" rfl rfl rfl rfl
  exact ⟨⟨rfl, rfl, rfl⟩, h.1, h.2.2.2.1⟩

end OpenGem
